import Mathlib

/-!
# Shallow embedding of the konverteringsoptimerare backend

This file models, in Lean, the analysis pipeline of the repository:

* `app/services/analyzer.py`  — `ConversionAnalyzer` and its seven scoring
  methods, `generate_leaking_funnels`, `generate_analysis`, `_count_issues`,
  `_generate_logical_errors`;
* `app/services/scraper.py`   — the HTML element extractors (`_is_gated`,
  `extract_lead_magnets`, `extract_ungated_pdfs`, `extract_company_info`, …)
  over an explicit DOM tree;
* `app/services/industry_detector.py` — the keyword-taxonomy classifier;
* `app/api/routes.py`         — the adjusted-score merge in `generate_ai_sync`.

Conventions: Python dicts become structures; a key read with `.get(k, default)`
becomes a total field (absence is the default value); Python floats become `ℚ`
with `round` modelled as exact decimal round-half-to-even; presentation-only
strings (problem descriptions, recommendations, evidence snippets) are omitted
from problem records since no scoring decision reads them — each problem keeps
its `tag` and `severity`, which the score computations do read.
`py…`-prefixed helpers model the Python built-ins the source relies on.
-/

/-- Contiguous-sublist test, used to model Python substring membership. -/
def listSub {α : Type} [BEq α] : List α → List α → Bool
  | pat, [] => pat.isEmpty
  | pat, s@(_ :: rest) => pat.isPrefixOf s || listSub pat rest

/-- Python `pat in s` substring test. -/
def strContains (s pat : String) : Bool :=
  listSub pat.toList s.toList

/-- Python `str.strip()`: drop leading and trailing whitespace. -/
def pyStrip (s : String) : String :=
  String.mk (((s.toList.dropWhile Char.isWhitespace).reverse.dropWhile Char.isWhitespace).reverse)

/-- Python string slicing `s[:n]`: the first `n` characters. -/
def pySlice (s : String) (n : Nat) : String :=
  String.mk (s.toList.take n)

/-- Splitting worker over character lists: emit a piece at every
non-overlapping occurrence of `sep` (nonempty), scanning left to right.
`fuel` (list length + 1 at the top call) only serves termination. -/
def splitOnAuxL (sep : List Char) : Nat → List Char → List Char → List (List Char)
  | _, acc, [] => [acc.reverse]
  | 0, acc, rest => [acc.reverse ++ rest]
  | fuel + 1, acc, s@(c :: rest) =>
    if sep.isPrefixOf s then
      acc.reverse :: splitOnAuxL sep fuel [] (s.drop sep.length)
    else
      splitOnAuxL sep fuel (c :: acc) rest

/-- Python `s.split(sep)` for a nonempty separator (also the behaviour of
`str.split` the source relies on). -/
def pySplitOn (s sep : String) : List String :=
  if sep == "" then [s]
  else (splitOnAuxL sep.toList (s.toList.length + 1) [] s.toList).map String.mk

/-- Replacement worker over character lists (non-overlapping, left to right). -/
def replaceAuxL (pat rep : List Char) : Nat → List Char → List Char
  | _, [] => []
  | 0, rest => rest
  | fuel + 1, s@(c :: rest) =>
    if pat.isPrefixOf s then rep ++ replaceAuxL pat rep fuel (s.drop pat.length)
    else c :: replaceAuxL pat rep fuel rest

/-- Python `s.replace(pat, rep)` for a nonempty pattern. -/
def pyReplace (s pat rep : String) : String :=
  if pat == "" then s
  else String.mk (replaceAuxL pat.toList rep.toList (s.toList.length + 1) s.toList)

/-- Python `s.startswith(pre)`. -/
def pyStartsWith (s pre : String) : Bool :=
  pre.toList.isPrefixOf s.toList

/-- Python `str.lower()`: ASCII lowering plus the non-ASCII letters occurring
in this repository's data (Swedish å/ä/ö and é). -/
def pyLowerChar (c : Char) : Char :=
  if c = 'Å' then 'å' else if c = 'Ä' then 'ä' else if c = 'Ö' then 'ö'
  else if c = 'É' then 'é' else c.toLower

/-- Python `str.lower()` on a whole string. -/
def pyLower (s : String) : String :=
  String.mk (s.toList.map pyLowerChar)

/-- Python truthiness of an optional string: `None` and `""` are falsy. -/
def pyTruthy : Option String → Bool
  | none => false
  | some s => s != ""

/-- An apostrophe character, used when printing Python lists of strings. -/
def pyQuote : String :=
  String.mk [Char.ofNat 39]

/-- Python `str(...)` of a list of strings, e.g. `str(["a", "b"])`. -/
def pyStrList (cs : List String) : String :=
  "[" ++ String.intercalate ", " (cs.map (fun c => pyQuote ++ c ++ pyQuote)) ++ "]"

/-- Python 3 `round()` to an integer: round half to even (banker's rounding). -/
def bankersRound (q : ℚ) : ℤ :=
  if q - ⌊q⌋ < 1/2 then ⌊q⌋
  else if (1 : ℚ)/2 < q - ⌊q⌋ then ⌊q⌋ + 1
  else if ⌊q⌋ % 2 = 0 then ⌊q⌋ else ⌊q⌋ + 1

/-- Python `round(q, nd)`: exact decimal round-half-to-even (the source applies
it to values where binary-float artifacts do not arise). -/
def pyRound (nd : ℕ) (q : ℚ) : ℚ :=
  (bankersRound (q * 10 ^ nd) : ℚ) / 10 ^ nd

/-! ## Data model: the scraped-data record handed to `ConversionAnalyzer`

These mirror the dicts built by `WebScraper` in `scraper.py` (lines 109-112,
149-154, 183-239, 283-289, 306-339, 360-365, 382-387, 394-424, 436-446).
-/

structure CompanyInfo where
  company_name : Option String
  description : Option String
deriving Repr, DecidableEq

structure MagnetData where
  text : String
  url : String
  type : String
  is_gated : Bool
deriving Repr, DecidableEq

structure FormField where
  type : String
  name : Option String
  placeholder : Option String
  required : Bool
deriving Repr, DecidableEq

structure FormData where
  id : Option String
  action : String
  method : String
  fields : List FormField
  has_email_field : Bool
  has_name_field : Bool
  has_phone_field : Bool
  submit_text : String
  type : String
deriving Repr, DecidableEq

structure CtaData where
  text : String
  tag : String
  href : Option String
  classes : List String
  color_hint : Option String
deriving Repr, DecidableEq

/-- One social-proof record: `type` is one of `testimonial`, `quote`,
`client_logos`, `ratings`; the payload field used by that type is set. -/
structure ProofData where
  type : String
  content : Option String
  count : Option Nat
  found : Option Nat
deriving Repr, DecidableEq

structure MailtoData where
  email : String
  text : String
  context : String
  issue : String
deriving Repr, DecidableEq

structure PdfData where
  url : String
  text : String
  issue : String
deriving Repr, DecidableEq

structure VPData where
  h1 : Option String
  h1_length : Nat
  has_hero : Bool
  hero_text : Option String
  has_subheadline : Bool
  subheadline : Option String
deriving Repr, DecidableEq

/-- The `offer_structure` sub-dict as the analyzer reads it with
`self.data.get("offer_structure", {}).get(key, default)`: a missing dict or a
missing key is the listed default (`False` / `0`). -/
structure OfferData where
  has_free_offer : Bool
  has_pricing : Bool
  has_segmented_pricing : Bool
  pricing_tiers : Nat
deriving Repr, DecidableEq

/-- All-absent offer data: what the analyzer sees when the scraped dict has no
`offer_structure` key at all. -/
def OfferData.empty : OfferData :=
  ⟨false, false, false, 0⟩

/-- The scraped-data dict consumed by `ConversionAnalyzer` and
`IndustryDetector`.  Every collection key is read with `.get(k, [])`, so each
is a total list field here. -/
structure ScrapedData where
  url : String
  company_info : CompanyInfo
  lead_magnets : List MagnetData
  forms : List FormData
  cta_buttons : List CtaData
  social_proof : List ProofData
  mailto_links : List MailtoData
  ungated_pdfs : List PdfData
  value_proposition : VPData
  offer_structure : OfferData
deriving Repr, DecidableEq

/-! ## `analyzer.py`: constants and the seven analyzers -/

/-- `CATEGORY_WEIGHTS` (analyzer.py lines 9-17). -/
def CATEGORY_WEIGHTS : List (String × ℚ) :=
  [("value_proposition", 2), ("call_to_action", 3/2), ("lead_magnets", 3/2),
   ("social_proof", 1), ("form_design", 1), ("guiding_content", 1),
   ("offer_structure", 1)]

/-- Dictionary lookup into `CATEGORY_WEIGHTS` (every key used exists). -/
def categoryWeight (k : String) : ℚ :=
  ((CATEGORY_WEIGHTS.find? (fun p => p.1 == k)).map (·.2)).getD 0

/-- `TOTAL_WEIGHT = sum(CATEGORY_WEIGHTS.values())` (analyzer.py line 18). -/
def TOTAL_WEIGHT : ℚ :=
  (CATEGORY_WEIGHTS.map (·.2)).sum

/-- `CATEGORY_ICONS` (analyzer.py lines 21-29). -/
def CATEGORY_ICONS : List (String × String) :=
  [("value_proposition", "💎"), ("call_to_action", "🎯"), ("social_proof", "⭐"),
   ("lead_magnets", "🧲"), ("form_design", "📝"), ("guiding_content", "🗺️"),
   ("offer_structure", "💰")]

/-- `CRITERIA_LABELS` (models.py). -/
def CRITERIA_LABELS : List (String × String) :=
  [("value_proposition", "Värdeerbjudandets Tydlighet"),
   ("call_to_action", "Call to Action Effektivitet"),
   ("social_proof", "Social Proof & Trovärdighet"),
   ("lead_magnets", "Leadmagnet-kvalitet"),
   ("form_design", "Formulärdesign & Friktion"),
   ("guiding_content", "Vägledande Innehåll"),
   ("offer_structure", "Erbjudandets Struktur")]

/-- `get_status_from_score` (analyzer.py lines 32-39). -/
def get_status_from_score (score : Nat) : String :=
  if score ≤ 2 then "critical" else if score = 3 then "improvement" else "good"

/-- A problem tag as emitted by an analyzer (descriptions/recommendations
omitted: no score computation reads them). -/
structure Problem where
  tag : String
  severity : String
deriving Repr, DecidableEq

/-- The `{"score": ..., "problems": ...}` dict every analyzer returns. -/
structure ScoreResult where
  score : Nat
  problems : List Problem
deriving Repr, DecidableEq

/-- Vague-headline phrases (analyzer.py line 105). -/
def vague_phrases : List String :=
  ["välkommen", "welcome", "vi är", "we are", "hem", "home"]

/-- `analyze_value_proposition` (analyzer.py lines 52-154). -/
def analyze_value_proposition (d : ScrapedData) : ScoreResult :=
  let vp := d.value_proposition
  let h1T := pyTruthy vp.h1
  let h1s := vp.h1.getD ""
  let h1_length := vp.h1_length
  let has_hero := vp.has_hero
  let has_subheadline := vp.has_subheadline
  let vague := h1T && vague_phrases.any (fun p => strContains (pyLower h1s) p)
  let probs1 : List Problem :=
    if !h1T then [⟨"unclear_headline", "high"⟩]
    else if h1_length < 10 then [⟨"unclear_headline", "medium"⟩]
    else if h1_length > 80 then [⟨"value_prop_too_complex", "medium"⟩]
    else []
  let probs2 : List Problem := if vague then [⟨"unclear_headline", "high"⟩] else []
  let probs3 : List Problem := if !has_hero then [⟨"missing_usp", "medium"⟩] else []
  let probs4 : List Problem :=
    if h1T && !has_subheadline then [⟨"features_not_benefits", "low"⟩] else []
  let problems := probs1 ++ probs2 ++ probs3 ++ probs4
  let score : Nat :=
    if !h1T || vague then 1
    else if !has_hero && !has_subheadline then 2
    else if has_hero && (!has_subheadline || decide (h1_length > 80)) then 3
    else if has_hero && has_subheadline && decide (h1_length ≤ 80) then 4
    else 3
  let score := if problems.isEmpty then 5 else score
  ⟨max 1 (min 5 score), problems⟩

/-- Weak CTA texts (analyzer.py lines 198-199). -/
def weak_texts : List String :=
  ["läs mer", "read more", "mer info", "more info", "klicka här",
   "click here", "skicka", "submit", "send", "vidare", "continue"]

/-- Strong CTA patterns (analyzer.py lines 214-215). -/
def strong_patterns : List String :=
  ["gratis", "free", "starta", "start", "prova", "try",
   "boka", "book", "få", "get", "hämta", "ladda"]

/-- `analyze_cta` (analyzer.py lines 156-236).  The Python loop over weak CTA
texts breaks after the first hit, so it contributes at most one problem. -/
def analyze_cta (d : ScrapedData) : ScoreResult :=
  let ctas := d.cta_buttons
  if ctas.isEmpty then ⟨1, [⟨"no_cta_found", "high"⟩]⟩ else
  let probs1 : List Problem :=
    if ctas.length = 1 then [⟨"single_cta_placement", "medium"⟩] else []
  let isWeak := fun (c : CtaData) =>
    let t := pyStrip (pyLower c.text)
    weak_texts.contains t || strContains t "läs mer" || strContains t "klicka"
  let probs2 : List Problem :=
    if ctas.any isWeak then [⟨"generic_cta_text", "high"⟩] else []
  let problems := probs1 ++ probs2
  let has_strong_cta :=
    ctas.any (fun c => strong_patterns.any (fun p => strContains (pyLower c.text) p))
  let score : Nat :=
    if (problems.filter (fun p => p.severity == "high")).length > 0 then 2
    else if ctas.length = 1 then 3
    else if has_strong_cta && decide (ctas.length ≥ 2) then
      (if problems.isEmpty then 5 else 4)
    else 3
  ⟨max 1 (min 5 score), problems⟩

/-- `analyze_social_proof` (analyzer.py lines 238-321). -/
def analyze_social_proof (d : ScrapedData) : ScoreResult :=
  let proof := d.social_proof
  if proof.isEmpty then ⟨1, [⟨"no_social_proof", "high"⟩]⟩ else
  let types_found := proof.map (·.type)
  let has_testimonials := types_found.contains "testimonial" || types_found.contains "quote"
  let has_logos := types_found.contains "client_logos"
  let has_ratings := types_found.contains "ratings"
  let problems : List Problem :=
    (if !has_testimonials then [⟨"no_testimonials", "medium"⟩] else [])
    ++ (if !has_logos then [⟨"no_client_logos", "low"⟩] else [])
    ++ (if !has_ratings then [⟨"no_quantitative_proof", "low"⟩] else [])
  let proof_types_count : Nat :=
    (if has_testimonials then 1 else 0) + (if has_logos then 1 else 0)
    + (if has_ratings then 1 else 0)
  let score : Nat :=
    if proof_types_count = 0 then 1
    else if proof_types_count = 1 && !has_testimonials then 2
    else if proof_types_count = 1 then 3
    else if proof_types_count = 2 then 4
    else 5
  ⟨max 1 (min 5 score), problems⟩

/-- Weak lead-magnet keywords (analyzer.py line 383). -/
def weak_value_keywords : List String :=
  ["nyhetsbrev", "newsletter", "prenumerera", "subscribe"]

/-- `analyze_lead_magnets` (analyzer.py lines 323-416).  The mailto and
ungated-pdf loops emit one problem per record, two records at most; the weak
keyword loop breaks at the first hit. -/
def analyze_lead_magnets (d : ScrapedData) : ScoreResult :=
  let magnets := d.lead_magnets
  let ungated := d.ungated_pdfs
  let mailto := d.mailto_links
  let probs1 : List Problem :=
    if magnets.isEmpty then [⟨"no_lead_magnet", "high"⟩] else []
  let probs2 : List Problem :=
    (mailto.take 2).map (fun _ => ⟨"mailto_link_leak", "high"⟩)
  let probs3 : List Problem :=
    (ungated.take 2).map (fun _ => ⟨"open_pdf_leak", "high"⟩)
  let gated := magnets.filter (·.is_gated)
  let probs4 : List Problem :=
    if magnets.any (fun m => weak_value_keywords.any (fun kw => strContains (pyLower m.text) kw))
    then [⟨"weak_lead_magnet_value", "medium"⟩] else []
  let problems := probs1 ++ probs2 ++ probs3 ++ probs4
  let has_leaks := !mailto.isEmpty || !ungated.isEmpty
  let has_gated_magnets := !gated.isEmpty
  let score : Nat :=
    if magnets.isEmpty && !has_leaks then 1
    else if has_leaks && !has_gated_magnets then 2
    else if has_leaks && has_gated_magnets then 3
    else if has_gated_magnets && decide (gated.length ≥ 2) then
      (if problems.isEmpty then 5 else 4)
    else if has_gated_magnets then 4
    else 3
  ⟨max 1 (min 5 score), problems⟩

/-- Generic submit-button texts (analyzer.py line 473). -/
def generic_buttons : List String :=
  ["submit", "skicka", "send", "ok", "continue", "vidare"]

/-- The per-form loop of `analyze_form_design` (analyzer.py lines 456-482):
a form with more than 5 fields sets the too-many flag, appends its problem and
breaks the whole loop; otherwise a generic submit text sets the generic flag
and appends a problem, continuing.  Returns
`(has_too_many_fields, has_generic_button, problems)`. -/
def form_design_scan : List FormData → Bool → List Problem → Bool × Bool × List Problem
  | [], generic, probs => (false, generic, probs)
  | f :: rest, generic, probs =>
    if f.fields.length > 5 then
      (true, generic, probs ++ [⟨"too_many_form_fields", "high"⟩])
    else if generic_buttons.contains (pyStrip (pyLower f.submit_text)) then
      form_design_scan rest true (probs ++ [⟨"generic_submit_button", "medium"⟩])
    else
      form_design_scan rest generic probs

/-- `analyze_form_design` (analyzer.py lines 418-499). -/
def analyze_form_design (d : ScrapedData) : ScoreResult :=
  let lead_forms := d.forms.filter (fun f => f.type != "search")
  if lead_forms.isEmpty then ⟨1, [⟨"no_form_found", "high"⟩]⟩ else
  let scan := form_design_scan lead_forms false []
  let has_too_many_fields := scan.1
  let has_generic_button := scan.2.1
  let problems := scan.2.2
  let score : Nat :=
    if has_too_many_fields && has_generic_button then 1
    else if has_too_many_fields || (has_generic_button && decide (problems.length > 1)) then 2
    else if has_generic_button then 3
    else if problems.isEmpty then 5
    else 4
  ⟨max 1 (min 5 score), problems⟩

/-- `analyze_guiding_content` (analyzer.py lines 501-579). -/
def analyze_guiding_content (d : ScrapedData) : ScoreResult :=
  let lead_forms := d.forms.filter (fun f => f.type != "search")
  let ctas := d.cta_buttons
  let mailto := d.mailto_links
  let probs1 : List Problem :=
    if lead_forms.isEmpty && ctas.isEmpty then [⟨"no_next_step_info", "high"⟩] else []
  let probs2 : List Problem :=
    if !mailto.isEmpty && lead_forms.isEmpty then [⟨"contact_info_hidden", "medium"⟩] else []
  let probs3 : List Problem :=
    if !lead_forms.isEmpty || !ctas.isEmpty then [⟨"no_process_explanation", "low"⟩] else []
  let problems := probs1 ++ probs2 ++ probs3
  let has_forms := lead_forms.length > 0
  let has_ctas := ctas.length > 0
  let has_multiple_ctas := ctas.length ≥ 3
  let score : Nat :=
    if !has_forms && !has_ctas then 1
    else if has_forms && !has_ctas then 2
    else if has_forms && has_ctas then (if has_multiple_ctas then 4 else 3)
    else 3
  let high := problems.filter (fun p => p.severity == "high")
  let score := if high.isEmpty && has_forms && has_ctas then min 5 (score + 1) else score
  ⟨max 1 (min 5 score), problems⟩

/-- Low-barrier offer keywords (analyzer.py lines 608-610). -/
def low_barrier_keywords : List String :=
  ["gratis", "free", "kostnadsfri", "prova", "try",
   "demo", "test", "provperiod", "trial", "ingen bindning",
   "no commitment", "konsultation", "consultation"]

/-- `analyze_offer_structure` (analyzer.py lines 581-671). -/
def analyze_offer_structure (d : ScrapedData) : ScoreResult :=
  let ctas := d.cta_buttons
  let offer := d.offer_structure
  let has_free_offer :=
    offer.has_free_offer
    || ctas.any (fun c => low_barrier_keywords.any (fun kw => strContains (pyLower c.text) kw))
  let has_pricing := offer.has_pricing
  let has_segmented_pricing := offer.has_segmented_pricing
  let probs1 : List Problem :=
    if !has_free_offer then [⟨"no_low_barrier_entry", "high"⟩] else []
  let probs2 : List Problem :=
    if !has_pricing then [⟨"pricing_not_transparent", "medium"⟩] else []
  let probs3 : List Problem :=
    if has_pricing && !has_segmented_pricing then [⟨"single_offering", "low"⟩] else []
  let problems := probs1 ++ probs2 ++ probs3
  let score : Nat :=
    if ctas.isEmpty && !has_free_offer then 1
    else if !has_free_offer && !has_pricing then 2
    else if has_free_offer && !has_pricing then 3
    else if has_free_offer && has_pricing && !has_segmented_pricing then 4
    else if has_free_offer && has_pricing && has_segmented_pricing then 5
    else 3
  let high := problems.filter (fun p => p.severity == "high")
  let score := if !high.isEmpty then min score 2 else score
  ⟨max 1 (min 5 score), problems⟩

/-- One entry of the `leaking_funnels` list (analyzer.py lines 683-700). -/
structure Funnel where
  type : String
  severity : String
  location : String
  details : String
  recommendation : String
deriving Repr, DecidableEq

/-- `generate_leaking_funnels` (analyzer.py lines 673-702). -/
def generate_leaking_funnels (d : ScrapedData) : List Funnel :=
  d.mailto_links.map (fun m =>
    ⟨"mailto_link_leak", "high", pySlice m.context 50, "mailto:" ++ m.email,
     "Ersätt med kontaktformulär"⟩)
  ++ d.ungated_pdfs.map (fun p =>
    ⟨"open_pdf_leak", "high", pySlice p.text 50, pySlice p.url 100,
     "Gate PDF:en bakom formulär"⟩)

/-- `_count_issues` (analyzer.py lines 761-785). -/
def count_issues (d : ScrapedData) : Nat :=
  d.mailto_links.length + d.ungated_pdfs.length
  + (if (d.forms.filter (fun f => f.type != "search")).isEmpty then 1 else 0)
  + (if d.lead_magnets.isEmpty then 1 else 0)
  + (if d.social_proof.isEmpty then 1 else 0)
  + (if d.cta_buttons.isEmpty then 1 else 0)
  + (if !(pyTruthy d.value_proposition.h1) then 1 else 0)

/-- `_generate_logical_errors` (analyzer.py lines 787-814). -/
def generate_logical_errors (d : ScrapedData) : List String :=
  ((if !d.mailto_links.isEmpty then
      ["Ni har " ++ toString d.mailto_links.length
        ++ " mailto-länkar som läcker leads till era konkurrenter"] else [])
  ++ (if !d.ungated_pdfs.isEmpty then
      [toString d.ungated_pdfs.length
        ++ " värdefulla PDF-resurser ges bort utan att fånga e-postadresser"] else [])
  ++ (if d.lead_magnets.isEmpty then
      ["Inga lead magnets identifierade - ni missar alla passiva leads"] else [])
  ++ (if d.social_proof.isEmpty then
      ["Ingen synlig social proof - besökare har ingen anledning att lita på er"] else [])
  ++ (if (d.forms.filter (fun f => f.type != "search")).isEmpty then
      ["Inga lead capture-formulär - hur tänker ni konvertera trafik?"] else [])
  ++ (if !(pyTruthy d.value_proposition.h1) then
      ["Ingen H1-rubrik - besökare vet inte vad ni erbjuder inom 3 sekunder"] else [])).take 5

/-- One entry of `criteria_analysis` (analyzer.py lines 726-737; the legacy
`explanation` join of descriptions is omitted with the descriptions). -/
structure CriterionEntry where
  criterion : String
  criterion_label : String
  icon : String
  score : Nat
  weight : ℚ
  weighted_score : ℚ
  status : String
  problems : List Problem
deriving Repr, DecidableEq

/-- Builds one `criteria_analysis` entry from an analyzer result
(analyzer.py lines 721-737): `weighted_score = round(score * weight, 2)`. -/
def mkCriterionEntry (criterion : String) (r : ScoreResult) : CriterionEntry :=
  { criterion := criterion
    criterion_label := ((CRITERIA_LABELS.find? (fun p => p.1 == criterion)).map (·.2)).getD criterion
    icon := ((CATEGORY_ICONS.find? (fun p => p.1 == criterion)).map (·.2)).getD "📊"
    score := r.score
    weight := categoryWeight criterion
    weighted_score := pyRound 2 ((r.score : ℚ) * categoryWeight criterion)
    status := get_status_from_score r.score
    problems := r.problems }

/-- The dict returned by `generate_analysis` (analyzer.py lines 753-759). -/
structure AnalysisResult where
  criteria_analysis : List CriterionEntry
  overall_score : ℚ
  issues_found : Nat
  logical_errors : List String
  leaking_funnels : List Funnel
deriving Repr, DecidableEq

/-- `generate_analysis` (analyzer.py lines 704-759): runs the seven analyzers
in their fixed order and divides the sum of weighted scores by `TOTAL_WEIGHT`,
rounded to one decimal. -/
def generate_analysis (d : ScrapedData) : AnalysisResult :=
  let criteria :=
    [ mkCriterionEntry "value_proposition" (analyze_value_proposition d),
      mkCriterionEntry "call_to_action" (analyze_cta d),
      mkCriterionEntry "social_proof" (analyze_social_proof d),
      mkCriterionEntry "lead_magnets" (analyze_lead_magnets d),
      mkCriterionEntry "form_design" (analyze_form_design d),
      mkCriterionEntry "guiding_content" (analyze_guiding_content d),
      mkCriterionEntry "offer_structure" (analyze_offer_structure d) ]
  let weighted_sum := (criteria.map (·.weighted_score)).sum
  { criteria_analysis := criteria
    overall_score := pyRound 1 (weighted_sum / TOTAL_WEIGHT)
    issues_found := count_issues d
    logical_errors := generate_logical_errors d
    leaking_funnels := generate_leaking_funnels d }

/-! ## `scraper.py`: DOM model

BeautifulSoup documents are modelled as a tree: an element node has a tag
name, an attribute list and children; a text node holds a string.  The
document handed to the extractors is the soup object itself, modelled as an
element whose tag is BeautifulSoup's `"[document]"` name; `find_all` /
`find` search strict descendants of the node they are called on, in
document (preorder) order, exactly as in BeautifulSoup. -/

mutual

inductive Node where
  | elem (tag : String) (attrs : List (String × String)) (children : NodeList)
  | text (s : String)

inductive NodeList where
  | nil
  | cons (head : Node) (tail : NodeList)

end

def NodeList.toList : NodeList → List Node
  | .nil => []
  | .cons h t => h :: NodeList.toList t

def nodeTag : Node → String
  | .elem t _ _ => t
  | .text _ => ""

def nodeAttrs : Node → List (String × String)
  | .elem _ a _ => a
  | .text _ => []

def nodeChildren : Node → List Node
  | .elem _ _ cs => cs.toList
  | .text _ => []

/-- BeautifulSoup `tag.get(key)` / attribute access (attributes are unique). -/
def attrOf (n : Node) (key : String) : Option String :=
  ((nodeAttrs n).find? (fun p => p.1 == key)).map (·.2)

/-- BeautifulSoup's multi-valued `class` attribute: whitespace-split tokens;
a missing attribute is the empty list (`tag.get("class", [])`). -/
def classesOf (n : Node) : List String :=
  match attrOf n "class" with
  | none => []
  | some v => (pySplitOn v " ").filter (fun t => t != "")

mutual

/-- `get_text()` of a node: concatenation of its text pieces in document
order; with `strip := true` each piece is stripped (`get_text(strip=True)`). -/
def nodeText (strip : Bool) : Node → String
  | .text s => if strip then pyStrip s else s
  | .elem _ _ cs => listText strip cs

def listText (strip : Bool) : NodeList → String
  | .nil => ""
  | .cons h t => nodeText strip h ++ listText strip t

end

mutual

/-- All strict descendants of a node satisfying `p`, in document order:
BeautifulSoup `node.find_all(...)`. -/
def findAllNode (p : Node → Bool) : Node → List Node
  | .text _ => []
  | .elem _ _ cs => findAllList p cs

def findAllList (p : Node → Bool) : NodeList → List Node
  | .nil => []
  | .cons h t => (if p h then [h] else []) ++ findAllNode p h ++ findAllList p t

end

/-- BeautifulSoup `node.find(...)`: first matching strict descendant. -/
def findFirst (p : Node → Bool) (n : Node) : Option Node :=
  (findAllNode p n).head?

/-- `soup.find(tag)` by tag name. -/
def findFirstTag (n : Node) (tag : String) : Option Node :=
  findFirst (fun m => nodeTag m == tag) n

/-- `soup.find("meta", key=val)`: first `meta` whose attribute `key` equals
`val` exactly. -/
def findMetaBy (soup : Node) (key val : String) : Option Node :=
  findFirst (fun n => nodeTag n == "meta" && attrOf n key == some val) soup

mutual

/-- The node is a `form` or contains one among its descendants. -/
def nodeHasFormTag : Node → Bool
  | .elem tag _ cs => tag == "form" || listHasFormTag cs
  | .text _ => false

def listHasFormTag : NodeList → Bool
  | .nil => false
  | .cons h t => nodeHasFormTag h || listHasFormTag t

end

/-- `parent.find("form") is not None`: some strict descendant is a `form`. -/
def hasFormDescendant : Node → Bool
  | .elem _ _ cs => listHasFormTag cs
  | .text _ => false

/-- The class check of `_is_gated` (scraper.py lines 169-172):
`any(c in str(classes).lower() for c in ["modal", "popup", "gate", "form"])`
where `classes = parent.get("class", [])`. -/
def gateClassMatch (p : Node) : Bool :=
  ["modal", "popup", "gate", "form"].any
    (fun c => strContains (pyLower (pyStrList (classesOf p))) c)

/-- `_is_gated` (scraper.py lines 158-174) as a function of the element's
ancestor chain (nearest parent first): walk up to 5 ancestor levels; at each,
return true if the ancestor has a `form` descendant (`parent.find("form")`)
or a gate-indicating class token; running out of ancestors stops the walk. -/
def isGated (chain : List Node) : Bool :=
  (chain.take 5).any (fun p => hasFormDescendant p || gateClassMatch p)

mutual

/-- Anchors (`a` tags with an `href` attribute, `find_all("a", href=True)`)
in the subtree rooted at the given node, itself included, in document order,
each paired with its ancestor chain (nearest parent first). `chain` is the
ancestor chain of the visited node. -/
def anchorsNode : List Node → Node → List (Node × List Node)
  | chain, n@(.elem tag _ cs) =>
    (if tag == "a" && (attrOf n "href").isSome then [(n, chain)] else [])
      ++ anchorsList (n :: chain) cs
  | _, .text _ => []

def anchorsList : List Node → NodeList → List (Node × List Node)
  | _, .nil => []
  | chain, .cons h t => anchorsNode chain h ++ anchorsList chain t

end

/-- `soup.find_all("a", href=True)` with ancestor chains: all anchors among
the strict descendants of `soup`; every chain ends at `soup` itself. -/
def anchorChains (soup : Node) : List (Node × List Node) :=
  match soup with
  | .elem _ _ cs => anchorsList [soup] cs
  | .text _ => []

/-- Models `urllib.parse.urljoin` as far as the claims need it: an href that
already carries a scheme is kept, anything else is resolved against the base
(the precise RFC 3986 path arithmetic is irrelevant to every claim). -/
def pyUrljoin (base href : String) : String :=
  if strContains href "://" then href else base ++ href

/-! ## `scraper.py`: the extractors -/

/-- Lead-magnet keywords (scraper.py lines 121-125). -/
def lead_magnet_keywords : List String :=
  ["ladda ner", "download", "gratis", "free", "guide",
   "whitepaper", "e-bok", "ebook", "checklista", "checklist",
   "mall", "template", "rapport", "report", "pdf"]

/-- The per-anchor body of `extract_lead_magnets` (scraper.py lines 128-154):
keyword in the visible text (first keyword wins as `type`) or `.pdf` in the
lowered href (which overrides `type` to `"pdf"`). -/
def magnetEntry (base : String) (ac : Node × List Node) : Option MagnetData :=
  let a := ac.1
  let text := pyLower (nodeText true a)
  let href := pyLower ((attrOf a "href").getD "")
  let kw := lead_magnet_keywords.find? (fun k => strContains text k)
  let isPdf := strContains href ".pdf"
  if kw.isSome || isPdf then
    some { text := nodeText true a
           url := pyUrljoin base ((attrOf a "href").getD "")
           type := if isPdf then "pdf" else kw.getD "unknown"
           is_gated := isGated ac.2 }
  else none

/-- `extract_lead_magnets` (scraper.py lines 114-156). -/
def extract_lead_magnets (base : String) (soup : Node) : List MagnetData :=
  (anchorChains soup).filterMap (magnetEntry base)

/-- The per-anchor body of `extract_ungated_pdfs` (scraper.py lines 375-387). -/
def ungatedEntry (base : String) (ac : Node × List Node) : Option PdfData :=
  let a := ac.1
  let href := pyLower ((attrOf a "href").getD "")
  if strContains href ".pdf" && !isGated ac.2 then
    some { url := pyUrljoin base ((attrOf a "href").getD "")
           text := nodeText true a
           issue := "Öppen PDF utan formulär - ni ger bort innehåll utan att fånga leads" }
  else none

/-- `extract_ungated_pdfs` (scraper.py lines 369-388). -/
def extract_ungated_pdfs (base : String) (soup : Node) : List PdfData :=
  (anchorChains soup).filterMap (ungatedEntry base)

/-- The per-anchor body of `extract_mailto_links` (scraper.py lines 349-365). -/
def mailtoEntry (ac : Node × List Node) : Option MailtoData :=
  let a := ac.1
  let href := (attrOf a "href").getD ""
  if pyStartsWith href "mailto:" then
    some { email := (pySplitOn (pyReplace href "mailto:" "") "?").headD ""
           text := nodeText true a
           context := match ac.2.head? with
             | some parent => pySlice (nodeText true parent) 100
             | none => ""
           issue := "Direkt e-postlänk exponerar er adress och gör det omöjligt att spåra konverteringar" }
  else none

/-- `extract_mailto_links` (scraper.py lines 343-367). -/
def extract_mailto_links (soup : Node) : List MailtoData :=
  (anchorChains soup).filterMap mailtoEntry

/-- One form's record (scraper.py lines 182-239).  BeautifulSoup's
`find_all(["input", "textarea", "select"])` yields the form's strict
descendants in document order; hidden inputs are skipped before both the
field list and the field-type flags. -/
def formEntry (f : Node) : FormData :=
  let inputs := findAllNode (fun n => ["input", "textarea", "select"].contains (nodeTag n)) f
  let nonHidden := inputs.filter (fun i => ((attrOf i "type").getD "text") != "hidden")
  let fields := nonHidden.map (fun i =>
    ({ type := (attrOf i "type").getD "text"
       name := attrOf i "name"
       placeholder := attrOf i "placeholder"
       required := (attrOf i "required").isSome } : FormField))
  let hasEmail := nonHidden.any (fun i =>
    ((attrOf i "type").getD "text") == "email"
    || strContains (pyLower ((attrOf i "name").getD "")) "email"
    || strContains (pyLower ((attrOf i "placeholder").getD "")) "email")
  let hasName := nonHidden.any (fun i =>
    strContains (pyLower ((attrOf i "name").getD "")) "name"
    || strContains (pyLower ((attrOf i "name").getD "")) "namn")
  let hasPhone := nonHidden.any (fun i =>
    strContains (pyLower ((attrOf i "name").getD "")) "phone"
    || strContains (pyLower ((attrOf i "name").getD "")) "telefon"
    || strContains (pyLower ((attrOf i "name").getD "")) "tel")
  let submitBtn :=
    (findAllNode (fun n => nodeTag n == "button" && attrOf n "type" == some "submit") f).head?
    <|> (findAllNode (fun n => nodeTag n == "input" && attrOf n "type" == some "submit") f).head?
  let submit_text := match submitBtn with
    | some b => if nodeTag b == "button" then nodeText true b else (attrOf b "value").getD "Submit"
    | none => ""
  let ftype :=
    if hasEmail && !hasPhone then "newsletter"
    else if hasEmail && hasName then (if fields.length > 4 then "contact" else "lead_capture")
    else if strContains (pyLower (pyStrList (classesOf f))) "search"
         || strContains (pyLower ((attrOf f "id").getD "")) "search" then "search"
    else "unknown"
  { id := attrOf f "id"
    action := (attrOf f "action").getD ""
    method := (attrOf f "method").getD "get"
    fields := fields
    has_email_field := hasEmail
    has_name_field := hasName
    has_phone_field := hasPhone
    submit_text := submit_text
    type := ftype }

/-- `extract_forms` (scraper.py lines 176-241). -/
def extract_forms (soup : Node) : List FormData :=
  (findAllNode (fun n => nodeTag n == "form") soup).map formEntry

/-- CTA keywords (scraper.py lines 250-256). -/
def cta_keywords : List String :=
  ["köp", "buy", "beställ", "order", "boka", "book",
   "prova", "try", "starta", "start", "börja", "begin",
   "kontakta", "contact", "få", "get", "hämta", "fetch",
   "registrera", "register", "sign up", "anmäl", "subscribe",
   "demo", "offert", "quote", "gratis", "free"]

/-- The per-element body of `extract_cta_buttons` (scraper.py lines 259-289):
keyword in the lowered text or a button-like class token, and text shorter
than 50 characters. -/
def ctaEntry (n : Node) : Option CtaData :=
  let text := pyLower (nodeText true n)
  let classesJ := pyLower (String.intercalate " " (classesOf n))
  let is_cta := cta_keywords.any (fun k => strContains text k)
    || ["btn", "button", "cta"].any (fun c => strContains classesJ c)
  if is_cta && decide (text.length < 50) then
    let style := (attrOf n "style").getD ""
    let color := if strContains style "background"
      then some (pySlice ((pySplitOn style "background").getD 1 "") 20) else none
    some { text := nodeText true n
           tag := nodeTag n
           href := if nodeTag n == "a" then attrOf n "href" else none
           classes := classesOf n
           color_hint := color }
  else none

/-- `extract_cta_buttons` (scraper.py lines 243-291). -/
def extract_cta_buttons (soup : Node) : List CtaData :=
  (findAllNode (fun n => ["button", "a"].contains (nodeTag n)) soup).filterMap ctaEntry

/-- Length of the leading whitespace run (regex `\s*`, greedy). -/
def wsLen (s : List Char) : Nat :=
  (s.takeWhile Char.isWhitespace).length

/-- The suffix of the ratings regex (scraper.py line 332) after the number:
`\s*(/\s*5|av\s*5|stjärnor|stars)`.  Returns the consumed length. -/
def ratingsTailMatch (s : List Char) : Option Nat :=
  let w := wsLen s
  let r := s.drop w
  if r.take 1 == ['/'] then
    (let r2 := r.drop 1
     let w2 := wsLen r2
     if (r2.drop w2).take 1 == ['5'] then some (w + 1 + w2 + 1) else none)
  else if r.take 2 == ['a', 'v'] then
    (let r2 := r.drop 2
     let w2 := wsLen r2
     if (r2.drop w2).take 1 == ['5'] then some (w + 2 + w2 + 1) else none)
  else if "stjärnor".toList.isPrefixOf r then some (w + 8)
  else if "stars".toList.isPrefixOf r then some (w + 5)
  else none

/-- One attempted match of the ratings regex `(\d[,.]?\d?)\s*(...)` at the
head of the list, with the greedy/backtracking order of the two optional
items (`[,.]?` then `\d?`); returns the consumed length. -/
def ratingsMatchAt : List Char → Option Nat
  | [] => none
  | c :: rest =>
    if c.isDigit then
      (match rest with
        | s1 :: d1 :: r =>
          if (s1 == ',' || s1 == '.') && d1.isDigit
          then (ratingsTailMatch r).map (fun t => 3 + t) else none
        | _ => none)
      <|> (match rest with
        | s1 :: r =>
          if s1 == ',' || s1 == '.'
          then (ratingsTailMatch r).map (fun t => 2 + t) else none
        | _ => none)
      <|> (match rest with
        | d1 :: r =>
          if d1.isDigit then (ratingsTailMatch r).map (fun t => 2 + t) else none
        | _ => none)
      <|> (ratingsTailMatch rest).map (fun t => 1 + t)
    else none

/-- `re.findall` counting: scan left to right, a match consumes its text
(non-overlapping), otherwise advance one character.  `fuel` only serves
termination; callers pass the list length, which suffices since every step
consumes at least one character. -/
def regexScanCount (m : List Char → Option Nat) : Nat → List Char → Nat
  | 0, _ => 0
  | _ + 1, [] => 0
  | fuel + 1, s@(_ :: rest) =>
    match m s with
    | some k => 1 + regexScanCount m fuel (s.drop (max k 1))
    | none => regexScanCount m fuel rest

/-- Number of matches of the rating pattern in the page text
(scraper.py lines 332-334). -/
def ratingsCount (s : String) : Nat :=
  regexScanCount ratingsMatchAt s.length s.toList

/-- Testimonial keywords (scraper.py line 300). -/
def testimonial_keywords : List String :=
  ["testimonial", "review", "omdöme", "recension", "citat", "quote"]

/-- Client-logo keywords (scraper.py line 319). -/
def logo_keywords : List String :=
  ["logo", "kund", "client", "partner", "trust", "featured"]

/-- `extract_social_proof` (scraper.py lines 293-341): testimonial-classed
elements, then every blockquote, then the first logo-classed container with
at least 3 images (first match wins), then the rating-pattern count over the
whole page text (`soup.get_text()`, unstripped). -/
def extract_social_proof (_base : String) (soup : Node) : List ProofData :=
  let part1 := (findAllNode
      (fun n => ["div", "section", "article", "blockquote"].contains (nodeTag n)) soup).filterMap
    (fun n =>
      let classesJ := pyLower (String.intercalate " " (classesOf n))
      let idL := pyLower ((attrOf n "id").getD "")
      if testimonial_keywords.any (fun k => strContains classesJ k || strContains idL k) then
        some { type := "testimonial", content := some (pySlice (nodeText true n) 200),
               count := none, found := none }
      else none)
  let part2 := (findAllNode (fun n => nodeTag n == "blockquote") soup).map
    (fun q => ({ type := "quote", content := some (pySlice (nodeText true q) 200),
                 count := none, found := none } : ProofData))
  let logoHit := (findAllNode (fun n => ["div", "section"].contains (nodeTag n)) soup).find?
    (fun n =>
      logo_keywords.any (fun k => strContains (pyLower (String.intercalate " " (classesOf n))) k)
      && decide ((findAllNode (fun m => nodeTag m == "img") n).length ≥ 3))
  let part3 : List ProofData := match logoHit with
    | some n => [{ type := "client_logos", content := none,
                   count := some (findAllNode (fun m => nodeTag m == "img") n).length,
                   found := none }]
    | none => []
  let ratings := ratingsCount (nodeText false soup)
  let part4 : List ProofData :=
    if ratings > 0 then
      [{ type := "ratings", content := none, count := none, found := some ratings }]
    else []
  part1 ++ part2 ++ part3 ++ part4

/-- Hero-section keywords (scraper.py line 409). -/
def hero_keywords : List String :=
  ["hero", "banner", "jumbotron", "header", "intro"]

mutual

/-- First `h1` among the strict descendants (document order) together with
its following siblings inside its parent — the context
`h1.find_next_sibling(["h2", "p"])` needs. -/
def h1SibNode : Node → Option (Node × List Node)
  | .elem _ _ cs => h1SibList cs
  | .text _ => none

def h1SibList : NodeList → Option (Node × List Node)
  | .nil => none
  | .cons h t =>
    if nodeTag h == "h1" then some (h, t.toList)
    else match h1SibNode h with
      | some r => some r
      | none => h1SibList t

end

/-- `extract_value_proposition` (scraper.py lines 390-424). -/
def extract_value_proposition (soup : Node) : VPData :=
  let h1sib := match soup with
    | .elem _ _ cs => h1SibList cs
    | .text _ => none
  let h1txt := h1sib.map (fun p => nodeText true p.1)
  let hero := (findAllNode (fun n => ["section", "div", "header"].contains (nodeTag n)) soup).find?
    (fun n => hero_keywords.any
      (fun k => strContains (pyLower (String.intercalate " " (classesOf n))) k))
  let sub := match h1sib with
    | some p => p.2.find? (fun s => nodeTag s == "h2" || nodeTag s == "p")
    | none => none
  { h1 := h1txt
    h1_length := (h1txt.getD "").length
    has_hero := hero.isSome
    hero_text := hero.map (fun n => pySlice (nodeText true n) 300)
    has_subheadline := sub.isSome
    subheadline := sub.map (fun s => pySlice (nodeText true s) 150) }

/-- Python `str.title()` for one character, given whether the previous
character was alphabetic (cased): uppercase after a non-cased character,
lowercase otherwise. -/
def pyIsAlpha (c : Char) : Bool :=
  c.isAlpha || "åäöéÅÄÖÉ".toList.contains c

def pyUpperChar (c : Char) : Char :=
  if c = 'å' then 'Å' else if c = 'ä' then 'Ä' else if c = 'ö' then 'Ö'
  else if c = 'é' then 'É' else c.toUpper

/-- Python `str.title()`. -/
def pyTitle (s : String) : String :=
  String.mk ((s.toList.foldl
    (fun acc c =>
      ((if acc.2 then pyLowerChar c else pyUpperChar c) :: acc.1, pyIsAlpha c))
    ([], false)).1.reverse)

/-- `urllib.parse.urlparse(url).netloc`, modelled for the scheme-carrying
URLs this service receives: the text between `"://"` and the next `/`, `?`
or `#`; empty when the URL carries no `"://"`. -/
def netlocOf (url : String) : String :=
  match pySplitOn url "://" with
  | _ :: rest :: _ => String.mk (rest.toList.takeWhile (fun c => c != '/' && c != '?' && c != '#'))
  | _ => ""

/-- The domain fallback of `extract_company_info` (scraper.py lines 83-85):
`parsed.netloc.replace("www.", "").split(".")[0].title()`. -/
def domainFallbackName (url : String) : String :=
  pyTitle (((pySplitOn (pyReplace (netlocOf url) "www." "") ".")).headD "")

/-- The separator list of the title heuristic (scraper.py line 73), tried in
this fixed order. -/
def title_separators : List String :=
  ["|", "-", "–", "—", ":"]

/-- Python `min(parts, key=len)`: first part of minimal length. -/
def minByLen : List String → String
  | [] => ""
  | p :: rest => rest.foldl (fun best x => if x.length < best.length then x else best) p

/-- The title branch of company-name resolution (scraper.py lines 69-80):
split on the first separator (in list order) occurring in the title and keep
the stripped shortest part; fall back to the first 50 characters when no
separator occurs or the shortest part strips to empty. -/
def titleDerivedName (title : String) : String :=
  match title_separators.find? (fun sep => strContains title sep) with
  | some sep =>
    let m := pyStrip (minByLen (pySplitOn title sep))
    if m == "" then pySlice title 50 else m
  | none => pySlice title 50

/-- `extract_company_info` (scraper.py lines 55-112).  Each stage only
overrides a falsy (`None` or empty) result of the previous stage, exactly as
the chained `if not company_name:` / `if not description:` guards do. -/
def extract_company_info (soup : Node) (url : String) : CompanyInfo :=
  let afterOg : Option String :=
    (findMetaBy soup "property" "og:site_name").bind (fun m => attrOf m "content")
  let afterTitle : Option String :=
    if pyTruthy afterOg then afterOg
    else match findFirstTag soup "title" with
      | some t => some (titleDerivedName (nodeText true t))
      | none => afterOg
  let company_name : Option String :=
    if pyTruthy afterTitle then afterTitle else some (domainFallbackName url)
  let d1 : Option String := match findMetaBy soup "name" "description" with
    | some m => attrOf m "content"
    | none => none
  let d2 : Option String :=
    if pyTruthy d1 then d1
    else match findMetaBy soup "property" "og:description" with
      | some m => attrOf m "content"
      | none => d1
  let d3 : Option String :=
    if pyTruthy d2 then d2
    else match findFirstTag soup "main" <|> findFirstTag soup "article" <|> findFirstTag soup "body" with
      | some mainN => match findFirstTag mainN "p" with
        | some p => some (pySlice (nodeText true p) 300)
        | none => d2
      | none => d2
  { company_name := company_name, description := d3 }

/-- The pure extraction part of `scrape_and_analyze` (scraper.py lines
426-446): the dict literal built after fetching.  Note the literal has **no**
`offer_structure` key, so the analyzer's
`self.data.get("offer_structure", {})` always sees the empty dict on data
coming from the scraper. -/
def scrapeExtract (finalUrl : String) (soup : Node) : ScrapedData :=
  { url := finalUrl
    company_info := extract_company_info soup finalUrl
    lead_magnets := extract_lead_magnets finalUrl soup
    forms := extract_forms soup
    cta_buttons := extract_cta_buttons soup
    social_proof := extract_social_proof finalUrl soup
    mailto_links := extract_mailto_links soup
    ungated_pdfs := extract_ungated_pdfs finalUrl soup
    value_proposition := extract_value_proposition soup
    offer_structure := OfferData.empty }

/-- The literal key list of the dict returned by `scrape_and_analyze`
(scraper.py lines 436-446), in source order. -/
def scrape_and_analyze_keys : List String :=
  ["url", "company_info", "lead_magnets", "forms", "cta_buttons",
   "social_proof", "mailto_links", "ungated_pdfs", "value_proposition"]

/-! ## Spec-side notions for the gating claim -/

/-- Spec-side reading of C3: the link has a `<form>` ancestor within `k`
levels (nearest parent = level 1). -/
def hasFormAncestorWithin (k : Nat) (chain : List Node) : Bool :=
  (chain.take k).any (fun n => nodeTag n == "form")

/-- Spec-side reading of C3's second half: none of the (up to) 5 examined
ancestor levels carries a `form` in its subtree or a modal/gate-indicating
class token — the link sits outside any form or gate context. -/
def noGateContext (chain : List Node) : Bool :=
  (chain.take 5).all (fun p => !(hasFormDescendant p || gateClassMatch p))

/-- The ancestor chain is parent-linked: each entry is a child of the next.
`anchorChains` only produces such chains (proved below). -/
def linkedChain : List Node → Prop
  | [] => True
  | [_] => True
  | x :: y :: rest => x ∈ nodeChildren y ∧ linkedChain (y :: rest)

/-! ## `industry_detector.py` -/

/-- Python regex word character (`\w`) for the texts this service handles:
ASCII alphanumerics, underscore, and the non-ASCII letters of the taxonomy. -/
def isWordChar (c : Char) : Bool :=
  c.isAlphanum || c == '_' || "åäöéÅÄÖÉ".toList.contains c

/-- `\b` to the left of a match: start of text or a non-word character. -/
def boundaryBefore : Option Char → Bool
  | none => true
  | some c => !isWordChar c

/-- `\b` to the right of a match: end of text or a non-word character. -/
def boundaryAfter : List Char → Bool
  | [] => true
  | c :: _ => !isWordChar c

/-- `len(re.findall(r"\b" + re.escape(kw) + r"\b", text))`: non-overlapping
left-to-right scan; `prev` is the character before the current position,
`fuel` (the text length at the top call) only serves termination since every
step consumes at least one character. -/
def wordScanCount (kw : List Char) : Nat → Option Char → List Char → Nat
  | 0, _, _ => 0
  | _ + 1, _, [] => 0
  | fuel + 1, prev, s@(c :: rest) =>
    if boundaryBefore prev && kw.isPrefixOf s && boundaryAfter (s.drop kw.length) then
      1 + wordScanCount kw fuel ((s.take (max kw.length 1)).getLast?) (s.drop (max kw.length 1))
    else
      wordScanCount kw fuel (some c) rest

/-- Whole-word match count of a keyword in a text (both already lowered). -/
def wordMatchCount (kw text : String) : Nat :=
  wordScanCount kw.toList text.length none text.toList

/-- `INDUSTRY_TAXONOMY` (industry_detector.py lines 11-149): key, keyword
list, label.  The `tone`/`terminology` entries are omitted: `detect` never
reads them.  Duplicated keywords inside one list are kept (the source counts
them twice). -/
def INDUSTRY_TAXONOMY : List (String × List String × String) :=
  [ ("finance",
     ["bank", "lån", "investering", "försäkring", "pension", "kapital",
      "värdering", "m&a", "transaktion", "förvärv", "avyttring", "rådgivning",
      "due diligence", "exit", "private equity", "venture", "fond", "aktie",
      "obligation", "ränta", "kredit", "finansiering", "börs", "handel",
      "investment", "acquisition", "valuation", "merger", "advisory",
      "equity", "debt", "portfolio", "asset", "wealth"],
     "Finans & Transaktionsrådgivning"),
    ("saas",
     ["plattform", "mjukvara", "app", "dashboard", "integration", "api",
      "moln", "prenumeration", "abonnemang", "automatisera", "workflow",
      "saas", "paas", "system", "digital", "teknologi", "verktyg",
      "software", "cloud", "subscription", "platform", "automation",
      "enterprise", "startup", "scale", "growth", "analytics"],
     "SaaS & Teknologi"),
    ("ecommerce",
     ["köp", "handla", "varukorg", "leverans", "produkt", "pris",
      "erbjudande", "rea", "rabatt", "webshop", "butik", "sortiment",
      "beställning", "frakt", "retur", "lager", "grossist", "detaljhandel",
      "shop", "cart", "checkout", "shipping", "product", "order",
      "retail", "wholesale", "inventory"],
     "E-handel & Retail"),
    ("consulting",
     ["rådgivning", "konsult", "expertis", "strategi", "transformation",
      "projekt", "uppdrag", "analys", "utredning", "implementering",
      "förändring", "ledarskap", "organisation", "process", "effektivisering",
      "consulting", "advisory", "strategy", "management", "implementation",
      "transformation", "leadership", "change"],
     "Konsulttjänster"),
    ("healthcare",
     ["hälsa", "vård", "patient", "behandling", "klinik", "läkare",
      "sjukvård", "medicin", "diagnos", "terapi", "rehabilitering",
      "tandvård", "vårdcentral", "specialistvård", "omsorg",
      "health", "care", "patient", "treatment", "clinic", "medical",
      "therapy", "wellness"],
     "Hälsa & Sjukvård"),
    ("realestate",
     ["fastighet", "bostad", "hyra", "köpa", "sälja", "mäklare",
      "lägenhet", "villa", "tomt", "bygga", "renovera", "investera",
      "hyresrätt", "bostadsrätt", "kommersiell", "lokal",
      "property", "real estate", "housing", "rental", "mortgage"],
     "Fastighet & Mäkleri"),
    ("legal",
     ["juridik", "advokat", "jurist", "avtal", "tvist", "rätt",
      "process", "domstol", "lag", "bolagsrätt", "arbetsrätt",
      "immaterialrätt", "skatterätt", "förhandling", "rådgivning",
      "legal", "law", "attorney", "contract", "litigation", "compliance"],
     "Juridik & Advokat"),
    ("marketing",
     ["marknadsföring", "reklam", "kampanj", "varumärke", "kommunikation",
      "digital", "sociala medier", "content", "seo", "annonsering",
      "strategi", "målgrupp", "konvertering", "leads", "trafik",
      "marketing", "advertising", "brand", "campaign", "social media",
      "content", "digital", "conversion", "growth"],
     "Marknadsföring & Reklam"),
    ("manufacturing",
     ["tillverkning", "produktion", "fabrik", "industri", "maskin",
      "leverantör", "kvalitet", "process", "automation", "logistik",
      "materialhantering", "lean", "iso", "certifiering",
      "manufacturing", "production", "factory", "industrial", "supply chain"],
     "Tillverkning & Industri"),
    ("education",
     ["utbildning", "kurs", "lärande", "skola", "universitet",
      "akademi", "certifiering", "kompetens", "utveckling", "träning",
      "workshop", "seminarium", "e-learning", "distans",
      "education", "learning", "training", "course", "certification"],
     "Utbildning & Lärande") ]

/-- Label lookup (`INDUSTRY_TAXONOMY[industry]["label"]`). -/
def industryLabel (k : String) : String :=
  ((INDUSTRY_TAXONOMY.find? (fun e => e.1 == k)).map (fun e => e.2.2)).getD "Allmänt B2B"

/-- Python `len(keyword.split())`: whitespace-separated word count. -/
def pySplitCount (s : String) : Nat :=
  ((pySplitOn s " ").filter (fun w => w != "")).length

/-- The weight of one keyword: `1 + (len(keyword.split()) - 1) * 0.5`
(industry_detector.py line 260; the subtraction is Python int arithmetic). -/
def keywordWeight (kw : String) : ℚ :=
  1 + ((pySplitCount kw : ℚ) - 1) * (1/2)

/-- One industry's total score over a lowered text: `matches * weight` summed
over its keywords (a keyword with zero matches contributes zero, exactly as
the `if matches > 0` guard makes it). -/
def industryScore (text : String) (kws : List String) : ℚ :=
  (kws.map (fun kw => (wordMatchCount (pyLower kw) text : ℚ) * keywordWeight kw)).sum

/-- `_score_industries` (industry_detector.py lines 247-263): the Counter has
an entry for an industry exactly when some of its keywords matched, i.e. when
its total is positive; insertion order is taxonomy order. -/
def score_industries (text : String) : List (String × ℚ) :=
  INDUSTRY_TAXONOMY.filterMap (fun e =>
    let tot := industryScore text e.2.1
    if tot > 0 then some (e.1, tot) else none)

/-- Texts with Python truthiness filtering: `if some_field:` keeps non-empty. -/
def optText : Option String → List String
  | none => []
  | some s => if s != "" then [s] else []

/-- `_collect_text` (industry_detector.py lines 208-245). -/
def collect_text (d : ScrapedData) : List String :=
  optText d.company_info.company_name
  ++ optText d.company_info.description
  ++ optText d.value_proposition.h1
  ++ optText d.value_proposition.hero_text
  ++ optText d.value_proposition.subheadline
  ++ d.lead_magnets.filterMap (fun m => if m.text != "" then some m.text else none)
  ++ d.cta_buttons.filterMap (fun c => if c.text != "" then some c.text else none)
  ++ d.forms.filterMap (fun f => if f.submit_text != "" then some f.submit_text else none)

/-- `" ".join(text_sources).lower()` (industry_detector.py line 179). -/
def combinedText (d : ScrapedData) : String :=
  pyLower (String.intercalate " " (collect_text d))

/-- Python `max(scores, key=scores.get)`: first entry with maximal value
(a later entry replaces only when strictly greater). -/
def argmaxFirst : (String × ℚ) → List (String × ℚ) → String × ℚ
  | best, [] => best
  | best, x :: rest => argmaxFirst (if x.2 > best.2 then x else best) rest

/-- Insertion into a descending-sorted list. -/
def insertDesc (x : ℚ) : List ℚ → List ℚ
  | [] => [x]
  | y :: r => if x ≥ y then x :: y :: r else y :: insertDesc x r

/-- `sorted(values, reverse=True)`. -/
def sortDesc (l : List ℚ) : List ℚ :=
  l.foldr insertDesc []

/-- `IndustryDetector.detect` (industry_detector.py lines 167-206). -/
def detect (d : ScrapedData) : String × ℚ × String :=
  let text := combinedText d
  let scores := score_industries text
  match scores with
  | [] => ("general", 0, "Allmänt B2B")
  | s :: rest =>
    let top := argmaxFirst s rest
    let top_score := top.2
    let sorted_scores := sortDesc ((s :: rest).map (·.2))
    let second_score := match sorted_scores with
      | _ :: b :: _ => b
      | _ => 0
    let absolute_confidence := min (top_score / 10) 1
    let relative_confidence := (top_score - second_score) / max top_score 1
    let confidence :=
      pyRound 2 (min (absolute_confidence * (6/10) + relative_confidence * (4/10)) 1)
    (top.1, confidence, industryLabel top.1)

/-- Spec-side reading of C9: all keywords of the joined taxonomy. -/
def all_taxonomy_keywords : List String :=
  (INDUSTRY_TAXONOMY.map (fun e => e.2.1)).flatten

/-- Spec-side reading of C9: no taxonomy keyword matches the combined text. -/
def noKeywordMatch (text : String) : Bool :=
  all_taxonomy_keywords.all (fun kw => wordMatchCount (pyLower kw) text == 0)

/-! ## `routes.py`: the adjusted-score merge of `generate_ai_sync` -/

/-- A JSON-ish Python value as the enrichment collaborator may return it for
one adjusted score. -/
inductive PyVal where
  | vint (n : ℤ)
  | vfloat (q : ℚ)
  | vstr (s : String)
  | vbool (b : Bool)
  | vother
deriving Repr, DecidableEq

/-- Rational truncation toward zero, as Python `int(float)` does. -/
def ratTrunc (q : ℚ) : ℤ :=
  if q < 0 then -(⌊-q⌋) else ⌊q⌋

/-- Python `int(str)`: optional surrounding whitespace, optional sign, at
least one digit; anything else raises `ValueError`. -/
def parseIntPy (s : String) : Option ℤ :=
  let t := (pyStrip s).toList
  let signDigits : ℤ × List Char := match t with
    | '-' :: r => (-1, r)
    | '+' :: r => (1, r)
    | r => (1, r)
  if signDigits.2 ≠ [] ∧ signDigits.2.all Char.isDigit then
    some (signDigits.1 * (signDigits.2.foldl (fun acc c => acc * 10 + ((c.toNat - 48) : ℤ)) 0))
  else none

/-- Python `int(value)` inside the `try` of routes.py lines 89-95: succeeds on
ints, floats (truncating), bools and integer-looking strings; `ValueError` /
`TypeError` (modelled as `none`) on everything else. -/
def pyToInt : PyVal → Option ℤ
  | .vint n => some n
  | .vfloat q => some (ratTrunc q)
  | .vbool b => some (if b then 1 else 0)
  | .vstr s => parseIntPy s
  | .vother => none

/-- The seven criteria keys of `score_map` (routes.py lines 77-85). -/
def adjusted_score_keys : List String :=
  ["value_proposition", "call_to_action", "social_proof", "lead_magnets",
   "form_design", "guiding_content", "offer_structure"]

/-- The weight dict re-declared in routes.py lines 99-107. -/
def routes_weights : List (String × ℚ) :=
  [("value_proposition", 2), ("call_to_action", 3/2), ("lead_magnets", 3/2),
   ("social_proof", 1), ("form_design", 1), ("guiding_content", 1),
   ("offer_structure", 1)]

/-- `weights.get(criterion, 1.0)` (routes.py line 110). -/
def routesWeight (k : String) : ℚ :=
  ((routes_weights.find? (fun p => p.1 == k)).map (·.2)).getD 1

/-- `total_weight = sum(weights.values())` (routes.py line 108). -/
def routes_total_weight : ℚ :=
  (routes_weights.map (·.2)).sum

/-- The per-criterion update of routes.py lines 86-95: a criterion whose key
is in `score_map` with a non-`None` adjustment gets
`max(1, min(5, int(value)))` as its new score; `int()` failure keeps the
original entry.  `adjusted k = none` models both an absent key and an
explicit `None`. -/
def applyAdjustedScores (criteria : List CriterionEntry)
    (adjusted : String → Option PyVal) : List CriterionEntry :=
  criteria.map (fun c =>
    if adjusted_score_keys.contains c.criterion then
      match adjusted c.criterion with
      | some v =>
        match pyToInt v with
        | some n => { c with score := (max 1 (min 5 n)).toNat }
        | none => c
      | none => c
    else c)

/-- The overall-score recomputation of routes.py lines 109-114. -/
def recalcOverall (criteria : List CriterionEntry) : ℚ :=
  pyRound 1
    ((criteria.map (fun c => (c.score : ℚ) * routesWeight c.criterion)).sum
      / routes_total_weight)

/-- What the spec's sentence describes for one criterion: a numeric
adjustment is used clamped to [1,5]; a non-numeric or absent adjustment keeps
the original score. -/
def adjustedScoreSpec (orig : Nat) (v : Option PyVal) : Nat :=
  match v with
  | some v =>
    match pyToInt v with
    | some n => (max 1 (min 5 n)).toNat
    | none => orig
  | none => orig

/-! ## Concrete example documents for counterexamples and witnesses -/

/-- Builds a `NodeList` from a `List Node`. -/
def nlOf : List Node → NodeList
  | [] => .nil
  | h :: t => .cons h (nlOf t)

/-- A PDF link whose `<form>` ancestor sits at exactly the fifth ancestor
level (four `div` wrappers in between), with no class attributes anywhere. -/
def c3deepAnchor : Node :=
  .elem "a" [("href", "/guide.pdf")] (nlOf [.text "Ladda ner guiden"])

def c3doc : Node :=
  .elem "[document]" [] (nlOf [
    .elem "html" [] (nlOf [
      .elem "body" [] (nlOf [
        .elem "form" [] (nlOf [
          .elem "div" [] (nlOf [
            .elem "div" [] (nlOf [
              .elem "div" [] (nlOf [
                .elem "div" [] (nlOf [c3deepAnchor])])])])])])])])

/-- A PDF link directly inside a `<form>` (form ancestor at level 1). -/
def c3wAnchor : Node :=
  .elem "a" [("href", "/x.pdf")] (nlOf [.text "pdf"])

def c3wForm : Node :=
  .elem "form" [] (nlOf [c3wAnchor])

def c3wDoc : Node :=
  .elem "[document]" [] (nlOf [c3wForm])

def c3wChain : List Node :=
  [c3wForm, c3wDoc]

/-- A document whose head has an `og:site_name` meta **without** a `content`
attribute, and a `<title>`. -/
def c8doc : Node :=
  .elem "[document]" [] (nlOf [
    .elem "html" [] (nlOf [
      .elem "head" [] (nlOf [
        .elem "meta" [("property", "og:site_name")] (nlOf []),
        .elem "title" [] (nlOf [.text "Acme"])])])])

/-- The title node inside `c8doc`. -/
def c8title : Node :=
  .elem "title" [] (nlOf [.text "Acme"])

/-- A document whose `og:site_name` meta does carry content. -/
def c8wdoc : Node :=
  .elem "[document]" [] (nlOf [
    .elem "html" [] (nlOf [
      .elem "head" [] (nlOf [
        .elem "meta" [("property", "og:site_name"), ("content", "Brandly")] (nlOf []),
        .elem "title" [] (nlOf [.text "Sida - Brandly AB"])])])])

/-- A document with a single ungated PDF link. -/
def c10doc : Node :=
  .elem "[document]" [] (nlOf [
    .elem "html" [] (nlOf [
      .elem "body" [] (nlOf [
        .elem "a" [("href", "/g.pdf")] (nlOf [.text "Guide"])])])])

/-- The ungated-PDF record `c10doc` produces. -/
def c10rec : PdfData :=
  { url := "https://y.se//g.pdf"
    text := "Guide"
    issue := "Öppen PDF utan formulär - ni ger bort innehåll utan att fånga leads" }

/-- An empty scraped-data record (a page with nothing on it). -/
def dEmpty : ScrapedData :=
  { url := ""
    company_info := ⟨none, none⟩
    lead_magnets := []
    forms := []
    cta_buttons := []
    social_proof := []
    mailto_links := []
    ungated_pdfs := []
    value_proposition := ⟨none, 0, false, none, false, none⟩
    offer_structure := OfferData.empty }

/-- A scraped-data record with exactly one mailto leak. -/
def dMailto : ScrapedData :=
  { dEmpty with mailto_links := [⟨"info@x.se", "Maila oss", "Kontakt: info@x.se", ""⟩] }

/-- The funnel entry `dMailto` produces. -/
def fMailto : Funnel :=
  ⟨"mailto_link_leak", "high", "Kontakt: info@x.se", "mailto:info@x.se",
   "Ersätt med kontaktformulär"⟩

/-- A criteria entry for the routes counterexample: structural score 3. -/
def c6entry : CriterionEntry :=
  { criterion := "value_proposition"
    criterion_label := "Värdeerbjudandets Tydlighet"
    icon := "💎"
    score := 3
    weight := 2
    weighted_score := 6
    status := "improvement"
    problems := [] }

/-- An adjustment map supplying the out-of-range value 7 for
`value_proposition` and nothing else. -/
def c6adj : String → Option PyVal :=
  fun k => if k == "value_proposition" then some (PyVal.vint 7) else none

/-! # Theorems -/

theorem score_clamp_bounds (x : Nat) : 1 ≤ max 1 (min 5 x) ∧ max 1 (min 5 x) ≤ 5 := by
  omega

theorem ite_clamp_bounds (b : Bool) (l p : List Problem) (x : Nat) :
    1 ≤ (if b then (⟨1, l⟩ : ScoreResult) else ⟨max 1 (min 5 x), p⟩).score
    ∧ (if b then (⟨1, l⟩ : ScoreResult) else ⟨max 1 (min 5 x), p⟩).score ≤ 5 := by
  cases b
  · exact score_clamp_bounds x
  · exact show 1 ≤ 1 ∧ 1 ≤ 5 from ⟨Nat.le_refl 1, by omega⟩

/-- C2: for every scraped-data input, each of the seven analyzers returns a
score that is a natural number in the closed interval [1,5] — no analyzer
emits 0 or a value above 5. -/
theorem spec2proof_c2_scores_in_range (d : ScrapedData) :
    (1 ≤ (analyze_value_proposition d).score ∧ (analyze_value_proposition d).score ≤ 5)
    ∧ (1 ≤ (analyze_cta d).score ∧ (analyze_cta d).score ≤ 5)
    ∧ (1 ≤ (analyze_social_proof d).score ∧ (analyze_social_proof d).score ≤ 5)
    ∧ (1 ≤ (analyze_lead_magnets d).score ∧ (analyze_lead_magnets d).score ≤ 5)
    ∧ (1 ≤ (analyze_form_design d).score ∧ (analyze_form_design d).score ≤ 5)
    ∧ (1 ≤ (analyze_guiding_content d).score ∧ (analyze_guiding_content d).score ≤ 5)
    ∧ (1 ≤ (analyze_offer_structure d).score ∧ (analyze_offer_structure d).score ≤ 5) :=
  ⟨score_clamp_bounds _, ite_clamp_bounds _ _ _ _, ite_clamp_bounds _ _ _ _,
   score_clamp_bounds _, ite_clamp_bounds _ _ _ _, score_clamp_bounds _,
   score_clamp_bounds _⟩

/-- C4: `generate_leaking_funnels` is a pure projection of the extracted
mailto and ungated-PDF records: its length is exactly
`len(mailto_links) + len(ungated_pdfs)` and every entry carries severity
`"high"`; `generate_analysis` passes it through unchanged. -/
theorem spec2proof_c4_leaking_funnels (d : ScrapedData) :
    (generate_analysis d).leaking_funnels = generate_leaking_funnels d
    ∧ (generate_leaking_funnels d).length = d.mailto_links.length + d.ungated_pdfs.length
    ∧ ∀ f ∈ generate_leaking_funnels d, f.severity = "high" := by
  refine ⟨rfl, ?_, ?_⟩
  · simp [generate_leaking_funnels]
  · intro f hf
    simp only [generate_leaking_funnels, List.mem_append, List.mem_map] at hf
    rcases hf with ⟨m, _, rfl⟩ | ⟨p, _, rfl⟩ <;> rfl

/-- C7: `issues_found` equals the number of mailto links plus the number of
ungated PDFs, plus 1 for each missing capability: no non-search
(lead-capture) form, no lead magnets, no social proof, no CTAs, no H1. -/
theorem spec2proof_c7_issues_found (d : ScrapedData) :
    (generate_analysis d).issues_found =
      d.mailto_links.length + d.ungated_pdfs.length
      + (if d.forms.filter (fun f => f.type != "search") = [] then 1 else 0)
      + (if d.lead_magnets = [] then 1 else 0)
      + (if d.social_proof = [] then 1 else 0)
      + (if d.cta_buttons = [] then 1 else 0)
      + (if pyTruthy d.value_proposition.h1 = false then 1 else 0) := by
  show count_issues d = _
  simp only [count_issues, List.isEmpty_iff, Bool.not_eq_true']

/-- C5 (code bug): the dict returned by `scrape_and_analyze` carries no
`offer_structure` key at all, so on scraper-produced data the offer-structure
analyzer always reads the all-default signals (`hasFreeOffer = hasPricing =
hasSegmentedPricing = False`, `pricingTiers = 0`) instead of extracted ones. -/
theorem spec2proof_c5_offer_structure_missing :
    scrape_and_analyze_keys.contains "offer_structure" = false
    ∧ (∀ finalUrl soup, (scrapeExtract finalUrl soup).offer_structure = OfferData.empty)
    ∧ OfferData.empty.has_free_offer = false
    ∧ OfferData.empty.has_pricing = false
    ∧ OfferData.empty.has_segmented_pricing = false
    ∧ OfferData.empty.pricing_tiers = 0 :=
  ⟨by decide, fun _ _ => rfl, rfl, rfl, rfl, rfl⟩

theorem pyRound2_half (k : ℤ) : pyRound 2 ((k : ℚ) / 2) = (k : ℚ) / 2 := by
  have h1 : ((k : ℚ) / 2) * 10 ^ 2 = ((50 * k : ℤ) : ℚ) := by push_cast; ring
  unfold pyRound bankersRound
  rw [h1, Int.floor_intCast]
  rw [if_pos (by norm_num : ((50 * k : ℤ) : ℚ) - ((50 * k : ℤ) : ℚ) < 1/2)]
  push_cast
  ring

theorem pyRound2_mul_two (s : Nat) : pyRound 2 ((s : ℚ) * 2) = (s : ℚ) * 2 := by
  have h : (s : ℚ) * 2 = ((4 * s : ℤ) : ℚ) / 2 := by push_cast; ring
  rw [h, pyRound2_half]

theorem pyRound2_mul_threehalf (s : Nat) : pyRound 2 ((s : ℚ) * (3/2)) = (s : ℚ) * (3/2) := by
  have h : (s : ℚ) * (3/2) = ((3 * s : ℤ) : ℚ) / 2 := by push_cast; ring
  rw [h, pyRound2_half]

theorem pyRound2_mul_one (s : Nat) : pyRound 2 ((s : ℚ) * 1) = (s : ℚ) * 1 := by
  have h : (s : ℚ) * 1 = ((2 * s : ℤ) : ℚ) / 2 := by push_cast; ring
  rw [h, pyRound2_half]

/-- C1: the overall score of `generate_analysis` is exactly
`round(Σ score_i * weight_i / TOTAL_WEIGHT, 1)` with the fixed weight table,
where `TOTAL_WEIGHT` is the sum of the table (9.0), computed from the table
rather than hardcoded. -/
theorem spec2proof_c1_overall_score (d : ScrapedData) :
    (generate_analysis d).overall_score =
      pyRound 1
        ((((analyze_value_proposition d).score : ℚ) * categoryWeight "value_proposition"
          + ((analyze_cta d).score : ℚ) * categoryWeight "call_to_action"
          + ((analyze_social_proof d).score : ℚ) * categoryWeight "social_proof"
          + ((analyze_lead_magnets d).score : ℚ) * categoryWeight "lead_magnets"
          + ((analyze_form_design d).score : ℚ) * categoryWeight "form_design"
          + ((analyze_guiding_content d).score : ℚ) * categoryWeight "guiding_content"
          + ((analyze_offer_structure d).score : ℚ) * categoryWeight "offer_structure")
          / TOTAL_WEIGHT)
    ∧ TOTAL_WEIGHT = (CATEGORY_WEIGHTS.map (·.2)).sum
    ∧ TOTAL_WEIGHT = 9
    ∧ categoryWeight "value_proposition" = 2
    ∧ categoryWeight "call_to_action" = 3/2
    ∧ categoryWeight "lead_magnets" = 3/2
    ∧ categoryWeight "social_proof" = 1
    ∧ categoryWeight "form_design" = 1
    ∧ categoryWeight "guiding_content" = 1
    ∧ categoryWeight "offer_structure" = 1 := by
  have hw1 : categoryWeight "value_proposition" = 2 := by
    simp [categoryWeight, CATEGORY_WEIGHTS, List.find?]
  have hw2 : categoryWeight "call_to_action" = 3/2 := by
    simp [categoryWeight, CATEGORY_WEIGHTS, List.find?]
  have hw3 : categoryWeight "lead_magnets" = 3/2 := by
    simp [categoryWeight, CATEGORY_WEIGHTS, List.find?]
  have hw4 : categoryWeight "social_proof" = 1 := by
    simp [categoryWeight, CATEGORY_WEIGHTS, List.find?]
  have hw5 : categoryWeight "form_design" = 1 := by
    simp [categoryWeight, CATEGORY_WEIGHTS, List.find?]
  have hw6 : categoryWeight "guiding_content" = 1 := by
    simp [categoryWeight, CATEGORY_WEIGHTS, List.find?]
  have hw7 : categoryWeight "offer_structure" = 1 := by
    simp [categoryWeight, CATEGORY_WEIGHTS, List.find?]
  have htw : TOTAL_WEIGHT = 9 := by
    norm_num [TOTAL_WEIGHT, CATEGORY_WEIGHTS]
  refine ⟨?_, rfl, htw, hw1, hw2, hw3, hw4, hw5, hw6, hw7⟩
  show pyRound 1
      ((pyRound 2 (((analyze_value_proposition d).score : ℚ) * categoryWeight "value_proposition")
        + (pyRound 2 (((analyze_cta d).score : ℚ) * categoryWeight "call_to_action")
        + (pyRound 2 (((analyze_social_proof d).score : ℚ) * categoryWeight "social_proof")
        + (pyRound 2 (((analyze_lead_magnets d).score : ℚ) * categoryWeight "lead_magnets")
        + (pyRound 2 (((analyze_form_design d).score : ℚ) * categoryWeight "form_design")
        + (pyRound 2 (((analyze_guiding_content d).score : ℚ) * categoryWeight "guiding_content")
        + (pyRound 2 (((analyze_offer_structure d).score : ℚ) * categoryWeight "offer_structure")
        + 0))))))) / TOTAL_WEIGHT) = _
  rw [hw1, hw2, hw3, hw4, hw5, hw6, hw7]
  simp only [pyRound2_mul_two, pyRound2_mul_threehalf, pyRound2_mul_one]
  congr 1
  ring

/-- C6 (amended): the adjusted-score merge replaces each of the seven
criteria scores by the clamped integer value of its adjustment when the
adjustment is numeric, keeps the original score when the adjustment is
non-numeric or absent, and the overall score is recomputed as the weighted
sum over the (possibly adjusted) scores divided by the same total weight 9. -/
theorem spec2proof_c6_amended (criteria : List CriterionEntry)
    (adjusted : String → Option PyVal) :
    applyAdjustedScores criteria adjusted
      = criteria.map (fun c =>
          if adjusted_score_keys.contains c.criterion then
            { c with score := adjustedScoreSpec c.score (adjusted c.criterion) }
          else c)
    ∧ (∀ (s : Nat) (v : PyVal) (n : ℤ), pyToInt v = some n →
        1 ≤ adjustedScoreSpec s (some v) ∧ adjustedScoreSpec s (some v) ≤ 5)
    ∧ (∀ (s : Nat) (v : PyVal), pyToInt v = none → adjustedScoreSpec s (some v) = s)
    ∧ (∀ (s : Nat), adjustedScoreSpec s none = s)
    ∧ recalcOverall (applyAdjustedScores criteria adjusted)
        = pyRound 1
            (((applyAdjustedScores criteria adjusted).map
                (fun c => (c.score : ℚ) * routesWeight c.criterion)).sum
              / routes_total_weight)
    ∧ routes_total_weight = (routes_weights.map (·.2)).sum
    ∧ routes_total_weight = 9 := by
  refine ⟨?_, ?_, ?_, fun _ => rfl, rfl, rfl,
    by norm_num [routes_total_weight, routes_weights]⟩
  · unfold applyAdjustedScores adjustedScoreSpec
    apply List.map_congr_left
    intro c _
    rcases adjusted c.criterion with _ | v
    · simp
    · rcases h : pyToInt v with _ | n <;> simp [h]
  · intro s v n h
    simp only [adjustedScoreSpec, h]
    omega
  · intro s v h
    simp [adjustedScoreSpec, h]

/-- C6 counterexample: an out-of-range numeric adjustment (7) is **not**
ignored — the criterion's score becomes the clamped value 5, not the original
structural score 3, contradicting the claim's "out-of-range … ignored so that
the original structural score is kept". -/
theorem spec2proof_c6_counterexample :
    c6entry.score = 3
    ∧ c6adj "value_proposition" = some (PyVal.vint 7)
    ∧ (applyAdjustedScores [c6entry] c6adj).map (·.score) = [5]
    ∧ (5 : Nat) ≠ 3 := by
  refine ⟨rfl, rfl, ?_, by decide⟩
  decide

theorem spec2proof_c4_witness :
    ((generate_leaking_funnels dMailto).length
      = dMailto.mailto_links.length + dMailto.ungated_pdfs.length)
    ∧ fMailto.severity = "high" :=
  ⟨(spec2proof_c4_leaking_funnels dMailto).2.1,
   (spec2proof_c4_leaking_funnels dMailto).2.2 fMailto (by decide)⟩

theorem listHasFormTag_of_mem (l : NodeList) (x : Node) (hx : x ∈ l.toList)
    (htag : nodeTag x = "form") : listHasFormTag l = true :=
  match l with
  | .nil => by simp [NodeList.toList] at hx
  | .cons hd tl => by
    simp only [NodeList.toList, List.mem_cons] at hx
    simp only [listHasFormTag, Bool.or_eq_true]
    rcases hx with rfl | hx
    · left
      cases x with
      | text s => simp [nodeTag] at htag
      | elem t a cs =>
        simp only [nodeTag] at htag
        simp [nodeHasFormTag, htag]
    · exact Or.inr (listHasFormTag_of_mem tl x hx htag)

theorem hasFormDescendant_of_child {x y : Node} (hm : x ∈ nodeChildren y)
    (hx : nodeTag x = "form") : hasFormDescendant y = true := by
  cases y with
  | text s => simp [nodeChildren] at hm
  | elem t a cs =>
    simp only [nodeChildren] at hm
    simpa only [hasFormDescendant] using listHasFormTag_of_mem cs x hm hx

mutual

theorem anchorsNode_linked (chain : List Node) (n : Node) (h : linkedChain (n :: chain)) :
    ∀ p ∈ anchorsNode chain n, linkedChain (p.1 :: p.2) ∧ chain <:+ p.2 :=
  match n with
  | .text s => by intro p hp; simp [anchorsNode] at hp
  | .elem tag attrs cs => by
    intro p hp
    rw [anchorsNode] at hp
    rcases List.mem_append.mp hp with h1 | h2
    · split at h1
      · rcases List.mem_singleton.mp h1 with rfl
        exact ⟨h, List.suffix_refl _⟩
      · cases h1
    · have hx : ∀ x ∈ cs.toList, linkedChain (x :: Node.elem tag attrs cs :: chain) :=
        fun x hx => ⟨hx, h⟩
      have hres := anchorsList_linked (Node.elem tag attrs cs :: chain) cs hx p h2
      exact ⟨hres.1, (List.suffix_cons _ _).trans hres.2⟩

theorem anchorsList_linked (chain : List Node) (l : NodeList)
    (h : ∀ x ∈ l.toList, linkedChain (x :: chain)) :
    ∀ p ∈ anchorsList chain l, linkedChain (p.1 :: p.2) ∧ chain <:+ p.2 :=
  match l with
  | .nil => by intro p hp; simp [anchorsList] at hp
  | .cons hd tl => by
    intro p hp
    rw [anchorsList] at hp
    rcases List.mem_append.mp hp with h1 | h2
    · exact anchorsNode_linked chain hd (h hd (by simp [NodeList.toList])) p h1
    · exact anchorsList_linked chain tl
        (fun x hx => h x (by simp only [NodeList.toList, List.mem_cons]; exact Or.inr hx)) p h2

end

theorem anchorChains_linked (attrs : List (String × String)) (kids : NodeList) :
    ∀ p ∈ anchorChains (Node.elem "[document]" attrs kids),
      linkedChain (p.1 :: p.2) ∧ [Node.elem "[document]" attrs kids] <:+ p.2 := by
  intro p hp
  rw [anchorChains] at hp
  exact anchorsList_linked [Node.elem "[document]" attrs kids] kids
    (fun x hx => ⟨hx, trivial⟩) p hp

theorem gated_of_form_within :
    ∀ (chain : List Node) (k : Nat), k ≤ 4 →
      linkedChain chain →
      (∀ last, chain.getLast? = some last → nodeTag last ≠ "form") →
      hasFormAncestorWithin k chain = true →
      (chain.take (k + 1)).any (fun p => hasFormDescendant p || gateClassMatch p) = true := by
  intro chain
  induction chain with
  | nil => intro k _ _ _ hform; simp [hasFormAncestorWithin] at hform
  | cons p rest ih =>
    intro k hk hlink hlast hform
    match k, hk with
    | 0, _ => simp [hasFormAncestorWithin] at hform
    | (k' + 1), hk =>
      simp only [hasFormAncestorWithin, List.take_succ_cons, List.any_cons,
        Bool.or_eq_true] at hform
      rcases hform with hp | hrest
      · have hptag : nodeTag p = "form" := by simpa using hp
        cases rest with
        | nil => exact absurd hptag (hlast p (by simp))
        | cons q rest2 =>
          have hpq : p ∈ nodeChildren q := hlink.1
          have hq : hasFormDescendant q = true := hasFormDescendant_of_child hpq hptag
          simp only [List.take_succ_cons, List.any_cons, Bool.or_eq_true]
          exact Or.inr (Or.inl (Or.inl hq))
      · have hk' : k' ≤ 4 := by omega
        have hlink' : linkedChain rest := by
          cases rest with
          | nil => trivial
          | cons q r2 => exact hlink.2
        have hlast' : ∀ last, rest.getLast? = some last → nodeTag last ≠ "form" := by
          intro last hl
          apply hlast
          cases rest with
          | nil => simp at hl
          | cons q r2 => rw [List.getLast?_cons_cons]; exact hl
        have hih := ih k' hk' hlink' hlast'
          (by simpa [hasFormAncestorWithin] using hrest)
        simp only [List.take_succ_cons, List.any_cons, Bool.or_eq_true]
        exact Or.inr (by simpa using hih)

/-- C3 (amended): in a scraped document, a PDF link with a `<form>` ancestor
within **4** levels is classified gated and contributes nothing to
`ungated_pdfs` (the code detects an enclosing form only from the form's
parent upward, so a form at exactly the fifth ancestor level is missed —
see the counterexample); and a PDF link with no form or modal/gate-indicating
context among its 5 examined ancestor levels is not gated and its record
appears in `extract_ungated_pdfs`. -/
theorem spec2proof_c3_gating_amended (base : String) (attrs : List (String × String))
    (kids : NodeList) :
    ∀ a chain, (a, chain) ∈ anchorChains (Node.elem "[document]" attrs kids) →
    strContains (pyLower ((attrOf a "href").getD "")) ".pdf" = true →
    (hasFormAncestorWithin 4 chain = true →
        isGated chain = true ∧ ungatedEntry base (a, chain) = none)
    ∧ (noGateContext chain = true →
        isGated chain = false
        ∧ ∃ r, ungatedEntry base (a, chain) = some r
            ∧ r ∈ extract_ungated_pdfs base (Node.elem "[document]" attrs kids)) := by
  intro a chain hmem hpdf
  obtain ⟨hlink, hsuf⟩ := anchorChains_linked attrs kids (a, chain) hmem
  dsimp only at hlink hsuf
  constructor
  · intro hform
    have hlast : ∀ last, chain.getLast? = some last → nodeTag last ≠ "form" := by
      intro last hl
      obtain ⟨t, ht⟩ := hsuf
      rw [← ht, List.getLast?_concat] at hl
      cases Option.some.inj hl
      simp [nodeTag]
    have hlink' : linkedChain chain := by
      cases chain with
      | nil => trivial
      | cons q r2 => exact hlink.2
    have hg : isGated chain = true :=
      gated_of_form_within chain 4 (Nat.le_refl 4) hlink' hlast hform
    refine ⟨hg, ?_⟩
    unfold ungatedEntry
    simp [hg]
  · intro hng
    have hg : isGated chain = false := by
      unfold noGateContext at hng
      simp only [List.all_eq_true, Bool.not_eq_true'] at hng
      unfold isGated
      rw [List.any_eq_false]
      intro x hx
      simp [hng x hx]
    have hsome : (ungatedEntry base (a, chain)).isSome = true := by
      unfold ungatedEntry
      simp [hg, hpdf]
    obtain ⟨r, hr⟩ := Option.isSome_iff_exists.mp hsome
    exact ⟨hg, r, hr, List.mem_filterMap.mpr ⟨(a, chain), hmem, hr⟩⟩

/-- C3 counterexample: in `c3doc` the PDF link has a `<form>` ancestor at
exactly the fifth ancestor level, i.e. within 5 levels as the claim states,
yet `_is_gated` returns false and the link appears in `ungated_pdfs` instead
of being excluded. -/
theorem spec2proof_c3_counterexample :
    (anchorChains c3doc).length = 1
    ∧ hasFormAncestorWithin 5 ((anchorChains c3doc).headD (Node.text "", [])).2 = true
    ∧ isGated ((anchorChains c3doc).headD (Node.text "", [])).2 = false
    ∧ (extract_ungated_pdfs "https://x.se/" c3doc).length = 1 := by
  refine ⟨by decide, by decide, by decide, by decide⟩

theorem spec2proof_c3_witness :
    hasFormAncestorWithin 4 c3wChain = true
    ∧ isGated c3wChain = true
    ∧ ungatedEntry "https://x.se/" (c3wAnchor, c3wChain) = none := by
  have h := spec2proof_c3_gating_amended "https://x.se/" [] (nlOf [c3wForm]) c3wAnchor c3wChain
    (List.mem_singleton_self _) rfl
  exact ⟨rfl, (h.1 rfl).1, (h.1 rfl).2⟩

theorem magnetEntry_of_ungatedEntry (base : String) (ac : Node × List Node) (r : PdfData)
    (h : ungatedEntry base ac = some r) :
    ∃ m, magnetEntry base ac = some m
      ∧ m.type = "pdf" ∧ m.is_gated = false ∧ m.url = r.url ∧ m.text = r.text := by
  unfold ungatedEntry at h
  dsimp only at h
  split at h
  case isTrue hc =>
    rw [Bool.and_eq_true] at hc
    obtain ⟨hpdf, hng⟩ := hc
    have hgate : isGated ac.2 = false := by simpa using hng
    cases Option.some.inj h
    have hmag : magnetEntry base ac = some
        { text := nodeText true ac.1
          url := pyUrljoin base ((attrOf ac.1 "href").getD "")
          type := "pdf"
          is_gated := false } := by
      unfold magnetEntry
      dsimp only
      rw [if_pos (by rw [hpdf]; simp)]
      simp [hpdf, hgate]
    exact ⟨_, hmag, rfl, rfl, rfl, rfl⟩
  case isFalse hc =>
    cases h

theorem ungated_subset_magnets (base : String) (soup : Node) (r : PdfData)
    (hr : r ∈ extract_ungated_pdfs base soup) :
    ∃ m ∈ extract_lead_magnets base soup,
      m.type = "pdf" ∧ m.is_gated = false ∧ m.url = r.url ∧ m.text = r.text := by
  rw [extract_ungated_pdfs] at hr
  obtain ⟨ac, hac, hent⟩ := List.mem_filterMap.mp hr
  obtain ⟨m, hm, ht, hg, hu, htx⟩ := magnetEntry_of_ungatedEntry base ac r hent
  exact ⟨m, List.mem_filterMap.mpr ⟨ac, hac, hm⟩, ht, hg, hu, htx⟩

/-- C10: every record of `extract_ungated_pdfs` corresponds to an anchor that
`extract_lead_magnets` also classifies as a lead magnet of type `"pdf"` with
`is_gated = false`; hence a non-empty `ungated_pdfs` forces a non-empty
`lead_magnets`, and on scraper-produced data the lead-magnet analyzer's
"no magnets and leaks present" combination can only come from mailto links,
never from ungated PDFs alone. -/
theorem spec2proof_c10_ungated_are_magnets :
    (∀ (base : String) (soup : Node) (r : PdfData), r ∈ extract_ungated_pdfs base soup →
        ∃ m ∈ extract_lead_magnets base soup,
          m.type = "pdf" ∧ m.is_gated = false ∧ m.url = r.url ∧ m.text = r.text)
    ∧ (∀ (base : String) (soup : Node),
        extract_ungated_pdfs base soup ≠ [] → extract_lead_magnets base soup ≠ [])
    ∧ (∀ (finalUrl : String) (soup : Node),
        (scrapeExtract finalUrl soup).lead_magnets = [] →
        ((scrapeExtract finalUrl soup).mailto_links ≠ []
          ∨ (scrapeExtract finalUrl soup).ungated_pdfs ≠ []) →
        (scrapeExtract finalUrl soup).mailto_links ≠ []
          ∧ (scrapeExtract finalUrl soup).ungated_pdfs = []) := by
  have hcore := ungated_subset_magnets
  refine ⟨hcore, ?_, ?_⟩
  · intro base soup hne
    obtain ⟨r, hr⟩ := List.exists_mem_of_ne_nil _ hne
    obtain ⟨m, hm, _⟩ := hcore base soup r hr
    exact List.ne_nil_of_mem hm
  · intro finalUrl soup hmag hleak
    have hmag' : extract_lead_magnets finalUrl soup = [] := hmag
    have hung : (scrapeExtract finalUrl soup).ungated_pdfs = [] := by
      show extract_ungated_pdfs finalUrl soup = []
      by_contra hne
      obtain ⟨r, hr⟩ := List.exists_mem_of_ne_nil _ hne
      obtain ⟨m, hm, _⟩ := hcore finalUrl soup r hr
      rw [hmag'] at hm
      cases hm
    rcases hleak with hm | hu
    · exact ⟨hm, hung⟩
    · exact absurd hung hu

theorem spec2proof_c10_witness :
    (∃ m ∈ extract_lead_magnets "https://y.se/" c10doc,
        m.type = "pdf" ∧ m.is_gated = false ∧ m.url = c10rec.url ∧ m.text = c10rec.text)
    ∧ extract_lead_magnets "https://y.se/" c10doc ≠ [] :=
  ⟨spec2proof_c10_ungated_are_magnets.1 "https://y.se/" c10doc c10rec (by decide),
   spec2proof_c10_ungated_are_magnets.2.1 "https://y.se/" c10doc (by decide)⟩

theorem pySlice_ne_empty (s : String) (n : Nat) (hs : s ≠ "") (hn : n ≠ 0) :
    pySlice s n ≠ "" := by
  intro hcontra
  have hdata : s.toList.take n = [] := congrArg String.data hcontra
  have hsl : s.toList ≠ [] := by
    intro h0
    exact hs (by cases s with | mk l => simpa [String.toList] using congrArg String.mk h0)
  match hl : s.toList, n with
  | [], _ => exact hsl hl
  | c :: r, 0 => exact hn rfl
  | c :: r, m + 1 => rw [hl] at hdata; simp at hdata

theorem titleDerivedName_ne_empty (t : String) (h : t ≠ "") : titleDerivedName t ≠ "" := by
  unfold titleDerivedName
  split
  · dsimp only
    split
    · exact pySlice_ne_empty t 50 h (by omega)
    · next hne =>
      intro hc
      rw [hc] at hne
      simp at hne
  · exact pySlice_ne_empty t 50 h (by omega)

theorem pyTruthy_some_of_ne {s : String} (h : s ≠ "") : pyTruthy (some s) = true := by
  simp [pyTruthy, h]

/-- C8 (amended): company-name resolution follows the chain — the first
`og:site_name` meta tag when it carries a non-empty `content`; otherwise the
`<title>` when its text is non-empty (split on the first listed separator
among `| - – — :` that occurs in it, keeping the stripped shortest part, with
the first 50 characters as fallback — the body of `titleDerivedName`);
otherwise the domain fallback.  An `og:site_name` tag that is present but has
no or empty content does **not** determine the name (see the
counterexample). -/
theorem spec2proof_c8_company_name_amended (soup : Node) (url : String) :
    (pyTruthy ((findMetaBy soup "property" "og:site_name").bind (fun m => attrOf m "content")) = true →
        (extract_company_info soup url).company_name
          = (findMetaBy soup "property" "og:site_name").bind (fun m => attrOf m "content"))
    ∧ (pyTruthy ((findMetaBy soup "property" "og:site_name").bind (fun m => attrOf m "content")) = false →
        ∀ t, findFirstTag soup "title" = some t → nodeText true t ≠ "" →
        (extract_company_info soup url).company_name
          = some (titleDerivedName (nodeText true t)))
    ∧ (pyTruthy ((findMetaBy soup "property" "og:site_name").bind (fun m => attrOf m "content")) = false →
        (∀ t, findFirstTag soup "title" = some t → nodeText true t = "") →
        (extract_company_info soup url).company_name = some (domainFallbackName url)) := by
  refine ⟨?_, ?_, ?_⟩
  · intro h
    unfold extract_company_info
    dsimp only
    rw [h]
    simp [h]
  · intro h t ht hne
    unfold extract_company_info
    dsimp only
    rw [h, ht]
    simp only [Bool.false_eq_true, if_false]
    rw [if_pos (pyTruthy_some_of_ne (titleDerivedName_ne_empty _ hne))]
  · intro h htitle
    unfold extract_company_info
    dsimp only
    rw [h]
    simp only [Bool.false_eq_true, if_false]
    cases ht : findFirstTag soup "title" with
    | none =>
      rw [h]
      simp
    | some t =>
      have htext : nodeText true t = "" := htitle t ht
      have hzero : titleDerivedName (nodeText true t) = "" := by
        rw [htext]; rfl
      dsimp only
      rw [hzero]
      simp [pyTruthy]

/-- C8 counterexample: `c8doc` has an `og:site_name` meta tag (no `content`
attribute) and a `<title>` of "Acme"; the claim says the present OpenGraph
tag determines the name, but the code resolves the name from the title. -/
theorem spec2proof_c8_counterexample :
    (findMetaBy c8doc "property" "og:site_name").isSome = true
    ∧ (extract_company_info c8doc "https://acme.example/").company_name = some "Acme"
    ∧ ((findMetaBy c8doc "property" "og:site_name").bind (fun m => attrOf m "content")) = none :=
  ⟨by decide, by decide, by decide⟩

theorem spec2proof_c8_witness :
    (extract_company_info c8wdoc "https://brandly.example/").company_name = some "Brandly"
    ∧ (extract_company_info c8doc "https://acme.example/").company_name
        = some (titleDerivedName "Acme") :=
  ⟨((spec2proof_c8_company_name_amended c8wdoc "https://brandly.example/").1 (by decide)).trans
      (by decide),
   (spec2proof_c8_company_name_amended c8doc "https://acme.example/").2.1 (by decide) c8title
      rfl (by decide)⟩

theorem keywordWeight_ge_half (kw : String) : 1/2 ≤ keywordWeight kw := by
  unfold keywordWeight
  have h : (0 : ℚ) ≤ (pySplitCount kw : ℚ) := Nat.cast_nonneg _
  linarith

theorem qsum_nonneg : ∀ l : List ℚ, (∀ x ∈ l, 0 ≤ x) → 0 ≤ l.sum := by
  intro l
  induction l with
  | nil => intro; simp
  | cons a t ih =>
    intro h
    have ha := h a (List.mem_cons_self _ _)
    have ht := ih (fun x hx => h x (List.mem_cons_of_mem _ hx))
    simp only [List.sum_cons]
    linarith

theorem qsum_eq_zero_iff : ∀ l : List ℚ, (∀ x ∈ l, 0 ≤ x) →
    (l.sum = 0 ↔ ∀ x ∈ l, x = 0) := by
  intro l
  induction l with
  | nil => intro; simp
  | cons a t ih =>
    intro h
    have ha := h a (List.mem_cons_self _ _)
    have ht : ∀ x ∈ t, 0 ≤ x := fun x hx => h x (List.mem_cons_of_mem _ hx)
    have hts := qsum_nonneg t ht
    simp only [List.sum_cons, List.mem_cons]
    constructor
    · intro h0
      have ha0 : a = 0 := by linarith
      have hs0 : t.sum = 0 := by linarith
      intro x hx
      rcases hx with rfl | hm
      · exact ha0
      · exact ((ih ht).mp hs0) x hm
    · intro hall
      have ha0 : a = 0 := hall a (Or.inl rfl)
      have hs0 : t.sum = 0 := (ih ht).mpr (fun x hx => hall x (Or.inr hx))
      rw [ha0, hs0, add_zero]

theorem qsum_half : ∀ l : List ℚ, (∀ x ∈ l, x = 0 ∨ 1/2 ≤ x) → 0 < l.sum → 1/2 ≤ l.sum := by
  intro l
  induction l with
  | nil => intro _ h0; simp at h0
  | cons a t ih =>
    intro h hpos
    have ha := h a (List.mem_cons_self _ _)
    have ht := fun x hx => h x (List.mem_cons_of_mem _ hx)
    have htnn : 0 ≤ t.sum := by
      apply qsum_nonneg
      intro x hx
      rcases ht x hx with h0 | hh
      · exact le_of_eq h0.symm
      · linarith
    simp only [List.sum_cons] at hpos ⊢
    rcases ha with ha0 | hah
    · rw [ha0, zero_add] at hpos ⊢
      exact ih ht hpos
    · linarith

theorem industryScore_nonneg (text : String) (kws : List String) :
    0 ≤ industryScore text kws := by
  unfold industryScore
  apply qsum_nonneg
  intro x hx
  obtain ⟨kw, _, rfl⟩ := List.mem_map.mp hx
  exact mul_nonneg (Nat.cast_nonneg _) (by linarith [keywordWeight_ge_half kw])

theorem industryScore_eq_zero_iff (text : String) (kws : List String) :
    industryScore text kws = 0 ↔ ∀ kw ∈ kws, wordMatchCount (pyLower kw) text = 0 := by
  unfold industryScore
  rw [qsum_eq_zero_iff _ (by
    intro x hx
    obtain ⟨kw, _, rfl⟩ := List.mem_map.mp hx
    exact mul_nonneg (Nat.cast_nonneg _) (by linarith [keywordWeight_ge_half kw]))]
  constructor
  · intro h kw hkw
    have hterm := h _ (List.mem_map_of_mem _ hkw)
    rcases mul_eq_zero.mp hterm with hc | hw
    · exact_mod_cast hc
    · have := keywordWeight_ge_half kw
      rw [hw] at this
      norm_num at this
  · intro h x hx
    obtain ⟨kw, hkw, rfl⟩ := List.mem_map.mp hx
    rw [h kw hkw]
    simp

theorem industryScore_ge_half (text : String) (kws : List String)
    (hpos : 0 < industryScore text kws) : 1/2 ≤ industryScore text kws := by
  unfold industryScore at hpos ⊢
  apply qsum_half _ _ hpos
  intro x hx
  obtain ⟨kw, _, rfl⟩ := List.mem_map.mp hx
  rcases Nat.eq_zero_or_pos (wordMatchCount (pyLower kw) text) with h0 | hpos'
  · left; rw [h0]; simp
  · right
    have h1 : (1 : ℚ) ≤ (wordMatchCount (pyLower kw) text : ℚ) := by exact_mod_cast hpos'
    have h2 := keywordWeight_ge_half kw
    nlinarith

theorem score_industries_mem_half {text : String} {kv : String × ℚ}
    (h : kv ∈ score_industries text) : 1/2 ≤ kv.2 := by
  unfold score_industries at h
  obtain ⟨e, _, hsome⟩ := List.mem_filterMap.mp h
  dsimp only at hsome
  split at hsome
  case isTrue hpos =>
    cases Option.some.inj hsome
    exact industryScore_ge_half _ _ hpos
  case isFalse =>
    cases hsome

theorem score_industries_empty_iff (text : String) :
    score_industries text = [] ↔ noKeywordMatch text = true := by
  unfold score_industries noKeywordMatch
  rw [List.filterMap_eq_nil_iff, List.all_eq_true]
  constructor
  · intro h kw hkw
    unfold all_taxonomy_keywords at hkw
    rw [List.mem_flatten] at hkw
    obtain ⟨l, hl, hkwl⟩ := hkw
    obtain ⟨e, he, rfl⟩ := List.mem_map.mp hl
    have hnone := h e he
    dsimp only at hnone
    split at hnone
    case isTrue => cases hnone
    case isFalse hneg =>
      have hzero : industryScore text e.2.1 = 0 :=
        le_antisymm (le_of_not_lt hneg) (industryScore_nonneg text e.2.1)
      have := (industryScore_eq_zero_iff text e.2.1).mp hzero kw hkwl
      simpa using this
  · intro h e he
    dsimp only
    rw [if_neg]
    rw [not_lt]
    apply le_of_eq
    apply (industryScore_eq_zero_iff text e.2.1).mpr
    intro kw hkw
    have hmem : kw ∈ all_taxonomy_keywords := by
      unfold all_taxonomy_keywords
      rw [List.mem_flatten]
      exact ⟨e.2.1, List.mem_map_of_mem _ he, hkw⟩
    simpa using h kw hmem

theorem argmaxFirst_ge_start : ∀ (l : List (String × ℚ)) (best : String × ℚ),
    best.2 ≤ (argmaxFirst best l).2 := by
  intro l
  induction l with
  | nil => intro best; simp [argmaxFirst]
  | cons x rest ih =>
    intro best
    simp only [argmaxFirst]
    refine le_trans ?_ (ih _)
    split
    · next hgt => exact le_of_lt hgt
    · exact le_refl _

theorem argmaxFirst_ge_mem : ∀ (l : List (String × ℚ)) (best x : String × ℚ), x ∈ l →
    x.2 ≤ (argmaxFirst best l).2 := by
  intro l
  induction l with
  | nil => intro best x hx; cases hx
  | cons y rest ih =>
    intro best x hx
    simp only [argmaxFirst]
    rcases List.mem_cons.mp hx with rfl | hx'
    · refine le_trans ?_ (argmaxFirst_ge_start rest _)
      split
      · exact le_refl _
      · next hngt => exact le_of_not_lt hngt
    · exact ih _ x hx'

theorem mem_insertDesc : ∀ (l : List ℚ) (x y : ℚ), y ∈ insertDesc x l → y = x ∨ y ∈ l := by
  intro l
  induction l with
  | nil =>
    intro x y hy
    simp only [insertDesc] at hy
    exact Or.inl (List.mem_singleton.mp hy)
  | cons a t ih =>
    intro x y hy
    simp only [insertDesc] at hy
    split at hy
    · rcases List.mem_cons.mp hy with rfl | h2
      · exact Or.inl rfl
      · exact Or.inr h2
    · rcases List.mem_cons.mp hy with rfl | h2
      · exact Or.inr (List.mem_cons_self _ _)
      · rcases ih x y h2 with h3 | h3
        · exact Or.inl h3
        · exact Or.inr (List.mem_cons_of_mem _ h3)

theorem mem_sortDesc : ∀ (l : List ℚ) (y : ℚ), y ∈ sortDesc l → y ∈ l := by
  intro l
  induction l with
  | nil => intro y hy; simp [sortDesc] at hy
  | cons a t ih =>
    intro y hy
    have hrw : sortDesc (a :: t) = insertDesc a (sortDesc t) := rfl
    rw [hrw] at hy
    rcases mem_insertDesc _ _ _ hy with rfl | h2
    · exact List.mem_cons_self _ _
    · exact List.mem_cons_of_mem _ (ih y h2)

theorem bankersRound_ge (q : ℚ) : q - 1/2 ≤ (bankersRound q : ℚ) := by
  unfold bankersRound
  have hfl : (⌊q⌋ : ℚ) ≤ q := Int.floor_le q
  have hfl2 : q < (⌊q⌋ : ℚ) + 1 := Int.lt_floor_add_one q
  split_ifs with h1 h2 h3
  · linarith
  · push_cast; linarith
  · linarith
  · push_cast; linarith

theorem pyRound2_ge (q : ℚ) : q - 1/200 ≤ pyRound 2 q := by
  unfold pyRound
  have h := bankersRound_ge (q * 10 ^ 2)
  have h100 : ((10 : ℚ)) ^ (2 : ℕ) = 100 := by norm_num
  rw [h100] at h ⊢
  linarith

theorem conf_formula_pos (topv secondv : ℚ) (htop : 1/2 ≤ topv) (hsec : secondv ≤ topv) :
    0 < pyRound 2 (min (min (topv / 10) 1 * (6/10) + (topv - secondv) / max topv 1 * (4/10)) 1) := by
  have habs : 1/20 ≤ min (topv / 10) 1 := le_min (by linarith) (by norm_num)
  have hmax : (1 : ℚ) ≤ max topv 1 := le_max_right _ _
  have hrel : 0 ≤ (topv - secondv) / max topv 1 :=
    div_nonneg (by linarith) (by linarith)
  have hpre : 3/100 ≤ min (min (topv / 10) 1 * (6/10) + (topv - secondv) / max topv 1 * (4/10)) 1 := by
    apply le_min ?_ (by norm_num)
    nlinarith
  have hrd := pyRound2_ge (min (min (topv / 10) 1 * (6/10) + (topv - secondv) / max topv 1 * (4/10)) 1)
  linarith

theorem detect_eq_of_scores_nil (d : ScrapedData)
    (h : score_industries (combinedText d) = []) :
    detect d = ("general", 0, "Allmänt B2B") := by
  unfold detect
  dsimp only
  rw [h]

theorem detect_conf_pos (d : ScrapedData) (s : String × ℚ) (rest : List (String × ℚ))
    (hs : score_industries (combinedText d) = s :: rest) :
    0 < (detect d).2.1 := by
  unfold detect
  dsimp only
  rw [hs]
  dsimp only
  have hsmem : s ∈ score_industries (combinedText d) := by
    rw [hs]; exact List.mem_cons_self _ _
  have htop : 1/2 ≤ (argmaxFirst s rest).2 :=
    le_trans (score_industries_mem_half hsmem) (argmaxFirst_ge_start rest s)
  cases hsort : sortDesc ((s :: rest).map (fun x => x.2)) with
  | nil =>
    dsimp only
    exact conf_formula_pos _ 0 htop (by linarith)
  | cons a tl =>
    cases tl with
    | nil =>
      dsimp only
      exact conf_formula_pos _ 0 htop (by linarith)
    | cons b tl2 =>
      dsimp only
      have hbmem : b ∈ sortDesc ((s :: rest).map (fun x => x.2)) := by
        rw [hsort]
        exact List.mem_cons_of_mem _ (List.mem_cons_self _ _)
      have hbl : b ∈ (s :: rest).map (fun x => x.2) := mem_sortDesc _ _ hbmem
      obtain ⟨x, hx, rfl⟩ := List.mem_map.mp hbl
      have hsec : x.2 ≤ (argmaxFirst s rest).2 := by
        rcases List.mem_cons.mp hx with rfl | hx'
        · exact argmaxFirst_ge_start rest x
        · exact argmaxFirst_ge_mem rest s x hx'
      exact conf_formula_pos _ _ htop hsec

/-- C9: `IndustryDetector.detect` returns confidence exactly 0 with industry
`"general"` and label `"Allmänt B2B"` if and only if no taxonomy keyword
matches the combined lowered text, and its result depends only on that
combined text (determinism). -/
theorem spec2proof_c9_industry_detection :
    (∀ d : ScrapedData,
        (noKeywordMatch (combinedText d) = true →
            detect d = ("general", 0, "Allmänt B2B"))
        ∧ ((detect d).2.1 = 0 ↔ noKeywordMatch (combinedText d) = true))
    ∧ (∀ d1 d2 : ScrapedData, combinedText d1 = combinedText d2 → detect d1 = detect d2) := by
  constructor
  · intro d
    constructor
    · intro h
      exact detect_eq_of_scores_nil d ((score_industries_empty_iff _).mpr h)
    · constructor
      · intro hzero
        by_contra hnm
        have hne : score_industries (combinedText d) ≠ [] := by
          intro h0
          exact hnm ((score_industries_empty_iff _).mp h0)
        obtain ⟨s, rest, hs⟩ : ∃ s rest, score_industries (combinedText d) = s :: rest := by
          cases hcase : score_industries (combinedText d) with
          | nil => exact absurd hcase hne
          | cons s rest => exact ⟨s, rest, rfl⟩
        have hpos := detect_conf_pos d s rest hs
        rw [hzero] at hpos
        exact lt_irrefl 0 hpos
      · intro h
        rw [detect_eq_of_scores_nil d ((score_industries_empty_iff _).mpr h)]
  · intro d1 d2 h
    unfold detect
    rw [h]

theorem spec2proof_c9_witness :
    detect dEmpty = ("general", 0, "Allmänt B2B") ∧ detect dEmpty = detect dEmpty :=
  ⟨(spec2proof_c9_industry_detection.1 dEmpty).1 (by decide),
   spec2proof_c9_industry_detection.2 dEmpty dEmpty rfl⟩

theorem spec2proof_c6_witness :
    1 ≤ adjustedScoreSpec 3 (some (PyVal.vint 7))
    ∧ adjustedScoreSpec 3 (some (PyVal.vint 7)) ≤ 5
    ∧ adjustedScoreSpec 3 (some (PyVal.vstr "x")) = 3 :=
  ⟨((spec2proof_c6_amended [] c6adj).2.1 3 (PyVal.vint 7) 7 rfl).1,
   ((spec2proof_c6_amended [] c6adj).2.1 3 (PyVal.vint 7) 7 rfl).2,
   (spec2proof_c6_amended [] c6adj).2.2.1 3 (PyVal.vstr "x") (by decide)⟩
